import Mathlib

/-!
Verification development for the color conversion and gamut-mapping core of the
oklch-color-picker repository (src/gamut.rs, plus the fallback computation of
src/app.rs).  The floating-point code is shallowly embedded over the real
numbers: every Rust expression is translated term by term, `f32` becoming `ℝ`,
`.sqrt()` becoming `Real.sqrt`, `.cbrt()` a sign-preserving real cube root and
`.atan2` the complex argument.
-/

open Real

noncomputable section

/-- Sign-preserving real cube root, the model of Rust `f32::cbrt`. -/
def cbrt (x : ℝ) : ℝ := if x < 0 then -((-x) ^ ((1 : ℝ)/3)) else x ^ ((1 : ℝ)/3)

/-- Model of Rust `y.atan2(x)`: the angle of the point `(x, y)`. -/
def atan2 (y x : ℝ) : ℝ := Complex.arg ⟨x, y⟩

/-- Model of `bevy_color::LinearRgba` (four `f32` channels). -/
@[ext] structure LinearRgba where
  red : ℝ
  green : ℝ
  blue : ℝ
  alpha : ℝ

/-- Model of `bevy_color::Oklaba`. -/
@[ext] structure Oklaba where
  lightness : ℝ
  a : ℝ
  b : ℝ
  alpha : ℝ

/-- Model of `Okhsva` from src/gamut.rs. -/
@[ext] structure Okhsva where
  hue : ℝ
  saturation : ℝ
  value : ℝ
  alpha : ℝ

lemma cbrt_zero : cbrt 0 = 0 := by
  simp [cbrt, Real.zero_rpow]

lemma cbrt_pos {x : ℝ} (hx : 0 < x) : 0 < cbrt x := by
  rw [cbrt, if_neg (by linarith)]
  exact Real.rpow_pos_of_pos hx _

lemma cbrt_cube {q : ℝ} (hq : 0 ≤ q) : cbrt (q ^ 3) = q := by
  rw [cbrt, if_neg (not_lt.2 (by positivity))]
  rw [← Real.rpow_natCast q 3, ← Real.rpow_mul hq]
  norm_num

lemma cbrt_neg_cube {q : ℝ} (hq : 0 ≤ q) : cbrt (-(q ^ 3)) = -q := by
  rcases eq_or_lt_of_le hq with h | h
  · rw [← h]; simpa using cbrt_zero
  · rw [cbrt, if_pos (neg_lt_zero.mpr (by positivity)), neg_neg,
      ← Real.rpow_natCast q 3, ← Real.rpow_mul hq]
    norm_num

lemma cbrt_cube_eq {x : ℝ} (hx : 0 ≤ x) : (cbrt x) ^ 3 = x := by
  rw [cbrt, if_neg (by linarith), ← Real.rpow_natCast (x ^ ((1:ℝ)/3)) 3,
    ← Real.rpow_mul hx]
  norm_num

lemma cbrt_nonneg {x : ℝ} (hx : 0 ≤ x) : 0 ≤ cbrt x := by
  rw [cbrt, if_neg (by linarith)]
  exact Real.rpow_nonneg hx _

lemma lt_cbrt {q x : ℝ} (hq : 0 ≤ q) (h : q ^ 3 < x) : q < cbrt x := by
  have hx : (0:ℝ) ≤ x := le_trans (by positivity) h.le
  have h3 : q ^ 3 < (cbrt x) ^ 3 := by rw [cbrt_cube_eq hx]; exact h
  exact lt_of_pow_lt_pow_left₀ 3 (cbrt_nonneg hx) h3

lemma cbrt_lt {q x : ℝ} (hx : 0 ≤ x) (h : x < q ^ 3) : cbrt x < q := by
  have h3 : (cbrt x) ^ 3 < q ^ 3 := by rw [cbrt_cube_eq hx]; exact h
  have hq : 0 ≤ q := by
    by_contra hq
    push_neg at hq
    have hq3 : q ^ 3 < 0 := Odd.pow_neg (by decide) hq
    nlinarith [pow_nonneg (cbrt_nonneg hx) 3]
  exact lt_of_pow_lt_pow_left₀ 3 hq h3

lemma le_cbrt {q x : ℝ} (hq : 0 ≤ q) (h : q ^ 3 ≤ x) : q ≤ cbrt x := by
  have hx : (0:ℝ) ≤ x := le_trans (by positivity) h
  have h3 : q ^ 3 ≤ (cbrt x) ^ 3 := by rw [cbrt_cube_eq hx]; exact h
  exact le_of_pow_le_pow_left₀ (by norm_num) (cbrt_nonneg hx) h3

/-- Modelled from the spec: the `LinearRgba → Oklaba` conversion is supplied by
the external `bevy_color` crate (not part of this repository's sources); per
spec §4.1 it implements the published Oklab matrices with an LMS intermediate
stage (linear combination, cube root, linear combination). -/
def linearRgbaToOklaba (c : LinearRgba) : Oklaba :=
  let l := 0.4122214708 * c.red + 0.5363325363 * c.green + 0.0514459929 * c.blue
  let m := 0.2119034982 * c.red + 0.6806995451 * c.green + 0.1073969566 * c.blue
  let s := 0.0883024619 * c.red + 0.2817188376 * c.green + 0.6299787005 * c.blue
  let l_ := cbrt l
  let m_ := cbrt m
  let s_ := cbrt s
  ⟨0.2104542553 * l_ + 0.7936177850 * m_ - 0.0040720468 * s_,
   1.9779984951 * l_ - 2.4285922050 * m_ + 0.4505937099 * s_,
   0.0259040371 * l_ + 0.7827717662 * m_ - 0.8086757660 * s_,
   c.alpha⟩

/-- Modelled from the spec: the `Oklaba → LinearRgba` conversion supplied by
`bevy_color`, the published inverse-direction Oklab matrices (linear
combination, cube, linear combination). -/
def oklabaToLinearRgba (c : Oklaba) : LinearRgba :=
  let l_ := c.lightness + 0.3963377774 * c.a + 0.2158037573 * c.b
  let m_ := c.lightness - 0.1055613458 * c.a - 0.0638541728 * c.b
  let s_ := c.lightness - 0.0894841775 * c.a - 1.2914855480 * c.b
  let l := l_ ^ 3
  let m := m_ ^ 3
  let s := s_ ^ 3
  ⟨4.0767416621 * l - 3.3077115913 * m + 0.2309699292 * s,
   -1.2684380046 * l + 2.6097574011 * m - 0.3413193965 * s,
   -0.0041960863 * l - 0.7034186147 * m + 1.7076147010 * s,
   c.alpha⟩

/-- The Halley-refined polynomial of src/gamut.rs lines 54-89, shared by the
three coefficient branches of `compute_max_saturation`. -/
def computeMaxSaturationWith (k0 k1 k2 k3 k4 wl wm ws a b : ℝ) : ℝ :=
  let ss := k0 + k1 * a + k2 * b + k3 * a * a + k4 * a * b
  let k_l := 0.3963377774 * a + 0.2158037573 * b
  let k_m := -0.1055613458 * a - 0.0638541728 * b
  let k_s := -0.0894841775 * a - 1.2914855480 * b
  let l_ := 1 + ss * k_l
  let m_ := 1 + ss * k_m
  let s_ := 1 + ss * k_s
  let l := l_ ^ 3
  let m := m_ ^ 3
  let s := s_ ^ 3
  let l_d_s := 3 * k_l * l_ * l_
  let m_d_s := 3 * k_m * m_ * m_
  let s_d_s := 3 * k_s * s_ * s_
  let l_d_s2 := 6 * k_l * k_l * l_
  let m_d_s2 := 6 * k_m * k_m * m_
  let s_d_s2 := 6 * k_s * k_s * s_
  let f := wl * l + wm * m + ws * s
  let f1 := wl * l_d_s + wm * m_d_s + ws * s_d_s
  let f2 := wl * l_d_s2 + wm * m_d_s2 + ws * s_d_s2
  ss - f * f1 / (f1 * f1 - 0.5 * f * f2)

/-- src/gamut.rs `compute_max_saturation` (lines 12-90): branch on which RGB
component goes below zero first, then the polynomial plus one Halley step. -/
def compute_max_saturation (a b : ℝ) : ℝ :=
  if -1.88170328 * a - 0.80936493 * b > 1 then
    computeMaxSaturationWith 1.19086277 1.76576728 0.59662641 0.75515197
      0.56771245 4.0767416621 (-3.3077115913) 0.2309699292 a b
  else if 1.81444104 * a - 1.19445276 * b > 1 then
    computeMaxSaturationWith 0.73956515 (-0.45954404) 0.08285427 0.12541070
      0.14503204 (-1.2684380046) 2.6097574011 (-0.3413193965) a b
  else
    computeMaxSaturationWith 1.35733652 (-0.00915799) (-1.15130210)
      (-0.50559606) 0.00692167 (-0.0041960863) (-0.7034186147) 1.7076147010 a b

/-- The `max(R, max(G, B))`-style maximum of the linear RGB channels of the
Oklab color `(1, S_cusp·a, S_cusp·b)`, as computed inside `find_cusp`
(src/gamut.rs lines 95-99). -/
def cuspMaxRgb (a b : ℝ) : ℝ :=
  let s_cusp := compute_max_saturation a b
  let rgb_at_max := oklabaToLinearRgba ⟨1, s_cusp * a, s_cusp * b, 1⟩
  max (max rgb_at_max.red rgb_at_max.green) rgb_at_max.blue

/-- src/gamut.rs `find_cusp` (lines 92-103). -/
def find_cusp (a b : ℝ) : ℝ × ℝ :=
  let s_cusp := compute_max_saturation a b
  let l_cusp := cbrt (1 / cuspMaxRgb a b)
  let c_cusp := l_cusp * s_cusp
  (l_cusp, c_cusp)

/-- The value of Rust `f32::MAX`, `2^128 - 2^104`. -/
def f32Max : ℝ := 340282346638528859811704183484516925440

/-- src/gamut.rs lines 122-181: the single Halley correction added to `t` in
the upper-half branch of `find_gamut_intersection`, with the block's free
variables as parameters.  Note that the `let l_dt := 3 * l_dt * l_ * l_` lines
shadow the first-derivative direction `l_dt` exactly as the Rust `let`
shadowing does, so the `l_dt2` lines below them consume the shadowed value. -/
def upperHalleyDelta (a b ll0 ll1 cc1 t : ℝ) : ℝ :=
  let dll := ll1 - ll0
  let dcc := cc1
  let k_l := 0.3963377774 * a + 0.2158037573 * b
  let k_m := -0.1055613458 * a - 0.0638541728 * b
  let k_s := -0.0894841775 * a - 1.2914855480 * b
  let l_dt := dll + dcc * k_l
  let m_dt := dll + dcc * k_m
  let s_dt := dll + dcc * k_s
  let ll := ll0 * (1 - t) + t * ll1
  let cc := t * cc1
  let l_ := ll + cc * k_l
  let m_ := ll + cc * k_m
  let s_ := ll + cc * k_s
  let l := l_ ^ 3
  let m := m_ ^ 3
  let s := s_ ^ 3
  let l_dt := 3 * l_dt * l_ * l_
  let m_dt := 3 * m_dt * m_ * m_
  let s_dt := 3 * s_dt * s_ * s_
  let l_dt2 := 6 * l_dt * l_dt * l_
  let m_dt2 := 6 * m_dt * m_dt * m_
  let s_dt2 := 6 * s_dt * s_dt * s_
  let r := 4.0767416621 * l - 3.3077115913 * m + 0.2309699292 * s - 1
  let r1 := 4.0767416621 * l_dt - 3.3077115913 * m_dt + 0.2309699292 * s_dt
  let r2 := 4.0767416621 * l_dt2 - 3.3077115913 * m_dt2 + 0.2309699292 * s_dt2
  let u_r := r1 / (r1 * r1 - 0.5 * r * r2)
  let t_r := -r * u_r
  let g := -1.2684380046 * l + 2.6097574011 * m - 0.3413193965 * s - 1
  let g1 := -1.2684380046 * l_dt + 2.6097574011 * m_dt - 0.3413193965 * s_dt
  let g2 := -1.2684380046 * l_dt2 + 2.6097574011 * m_dt2 - 0.3413193965 * s_dt2
  let u_g := g1 / (g1 * g1 - 0.5 * g * g2)
  let t_g := -g * u_g
  let bb := -0.0041960863 * l - 0.7034186147 * m + 1.7076147010 * s - 1
  let b1 := -0.0041960863 * l_dt - 0.7034186147 * m_dt + 1.7076147010 * s_dt
  let b2 := -0.0041960863 * l_dt2 - 0.7034186147 * m_dt2 + 1.7076147010 * s_dt2
  let u_b := b1 / (b1 * b1 - 0.5 * bb * b2)
  let t_b := -bb * u_b
  let t_r := if u_r ≥ 0 then t_r else f32Max
  let t_g := if u_g ≥ 0 then t_g else f32Max
  let t_b := if u_b ≥ 0 then t_b else f32Max
  min t_r (min t_g t_b)

/-- src/gamut.rs `find_gamut_intersection` (lines 106-186). -/
def find_gamut_intersection (a b ll1 cc1 ll0 : ℝ) : ℝ :=
  let ll := (find_cusp a b).1
  let cc := (find_cusp a b).2
  if (ll1 - ll0) * cc - (ll - ll0) * cc1 ≤ 0 then
    cc * ll0 / (cc1 * ll + cc * (ll0 - ll1))
  else
    let t := cc * (ll0 - 1) / (cc1 * (ll - 1) + cc * (ll0 - ll1))
    t + upperHalleyDelta a b ll0 ll1 cc1 t

/-- src/gamut.rs `clamp_rgba` (lines 225-232); Rust `x.clamp(0., 1.)` is
`min (max x 0) 1`. -/
def clamp_rgba (rgba : LinearRgba) : LinearRgba :=
  ⟨min (max rgba.red 0) 1,
   min (max rgba.green 0) 1,
   min (max rgba.blue 0) 1,
   min (max rgba.alpha 0) 1⟩

/-- The Oklab lightness of the input of `gamut_clip_preserve_chroma`
(src/gamut.rs line 201). -/
def clipL (rgba : LinearRgba) : ℝ := (linearRgbaToOklaba rgba).lightness

/-- The epsilon-guarded chroma of the input of `gamut_clip_preserve_chroma`
(src/gamut.rs lines 202-203). -/
def clipC (rgba : LinearRgba) : ℝ :=
  max 0.00001 (Real.sqrt ((linearRgbaToOklaba rgba).a * (linearRgbaToOklaba rgba).a +
    (linearRgbaToOklaba rgba).b * (linearRgbaToOklaba rgba).b))

/-- The unit hue direction components `a_`, `b_` (src/gamut.rs lines 204-205). -/
def clipA (rgba : LinearRgba) : ℝ := (linearRgbaToOklaba rgba).a / clipC rgba

/-- See `clipA`. -/
def clipB (rgba : LinearRgba) : ℝ := (linearRgbaToOklaba rgba).b / clipC rgba

/-- The clamped anchor lightness `ll0` (src/gamut.rs line 207). -/
def clipL0 (rgba : LinearRgba) : ℝ := min (max (clipL rgba) 0) 1

/-- The intersection parameter `t` (src/gamut.rs line 209). -/
def clipT (rgba : LinearRgba) : ℝ :=
  find_gamut_intersection (clipA rgba) (clipB rgba) (clipL rgba) (clipC rgba)
    (clipL0 rgba)

/-- The clipped Oklab color that `gamut_clip_preserve_chroma` converts back to
linear RGB (src/gamut.rs lines 210-218): `(L_clipped, C_clipped·a_,
C_clipped·b_, alpha)`. -/
def gamutClipTarget (rgba : LinearRgba) : Oklaba :=
  ⟨clipL0 rgba * (1 - clipT rgba) + clipT rgba * clipL rgba,
   clipT rgba * clipC rgba * clipA rgba,
   clipT rgba * clipC rgba * clipB rgba,
   rgba.alpha⟩

/-- src/gamut.rs `gamut_clip_preserve_chroma` (lines 188-223). -/
def gamut_clip_preserve_chroma (rgba : LinearRgba) : LinearRgba :=
  if rgba.red ≤ 1 ∧ rgba.green ≤ 1 ∧ rgba.blue ≤ 1 ∧
      0 ≤ rgba.red ∧ 0 ≤ rgba.green ∧ 0 ≤ rgba.blue then
    rgba
  else
    clamp_rgba (oklabaToLinearRgba (gamutClipTarget rgba))

/-- src/gamut.rs constant `K1`. -/
def tK1 : ℝ := 0.206

/-- src/gamut.rs constant `K2`. -/
def tK2 : ℝ := 0.03

/-- src/gamut.rs constant `K3 = (1 + K1) / (1 + K2)`. -/
def tK3 : ℝ := (1 + tK1) / (1 + tK2)

/-- src/gamut.rs `toe_inv` (lines 239-241): `L_r` to `L`. -/
def toe_inv (lr : ℝ) : ℝ := (lr * (lr + tK1)) / (tK3 * (lr + tK2))

/-- src/gamut.rs `toe` (lines 244-246): `L` to `L_r`. -/
def toe (l : ℝ) : ℝ :=
  0.5 * (tK3 * l - tK1 + Real.sqrt ((tK3 * l - tK1) * (tK3 * l - tK1) + 4 * tK2 * tK3 * l))

/-- src/gamut.rs `to_st` (lines 248-252). -/
def to_st (p : ℝ × ℝ) : ℝ × ℝ := (p.2 / p.1, p.2 / (1 - p.1))

/-- The fixed softening constant `s_0 = 0.5` of the Okhsv mapping
(src/gamut.rs lines 337 and 385). -/
def s0 : ℝ := 0.5

/-- Okhsv → Oklab intermediate `h = hue / 360` (src/gamut.rs line 322). -/
def okhsvH (c : Okhsva) : ℝ := c.hue / 360

/-- Okhsv → Oklab intermediate `a_ = cos(2π h)` (src/gamut.rs line 330). -/
def okhsvA (c : Okhsva) : ℝ := Real.cos (2 * π * okhsvH c)

/-- Okhsv → Oklab intermediate `b_ = sin(2π h)` (src/gamut.rs line 331). -/
def okhsvB (c : Okhsva) : ℝ := Real.sin (2 * π * okhsvH c)

/-- Okhsv → Oklab intermediate `s_max` from `to_st(find_cusp(a_, b_))`
(src/gamut.rs lines 333-335). -/
def okhsvSmax (c : Okhsva) : ℝ := (to_st (find_cusp (okhsvA c) (okhsvB c))).1

/-- Okhsv → Oklab intermediate `t_max` (src/gamut.rs lines 333-335). -/
def okhsvTmax (c : Okhsva) : ℝ := (to_st (find_cusp (okhsvA c) (okhsvB c))).2

/-- Okhsv → Oklab intermediate `k = 1 - s_0 / s_max` (src/gamut.rs line 338). -/
def okhsvK (c : Okhsva) : ℝ := 1 - s0 / okhsvSmax c

/-- The shared denominator `s_0 + t_max - t_max·k·s` of `l_v` and `c_v`
(src/gamut.rs lines 341-342). -/
def okhsvDen (c : Okhsva) : ℝ :=
  s0 + okhsvTmax c - okhsvTmax c * okhsvK c * c.saturation

/-- Okhsv → Oklab intermediate `l_v` (src/gamut.rs line 341). -/
def okhsvLv (c : Okhsva) : ℝ := 1 - c.saturation * s0 / okhsvDen c

/-- Okhsv → Oklab intermediate `c_v` (src/gamut.rs line 342). -/
def okhsvCv (c : Okhsva) : ℝ := c.saturation * okhsvTmax c * s0 / okhsvDen c

/-- Okhsv → Oklab intermediate `l_vt = toe_inv(l_v)` (src/gamut.rs line 348). -/
def okhsvLvt (c : Okhsva) : ℝ := toe_inv (okhsvLv c)

/-- Okhsv → Oklab intermediate `c_vt = c_v · l_vt / l_v` (src/gamut.rs
line 349). -/
def okhsvCvt (c : Okhsva) : ℝ := okhsvCv c * okhsvLvt c / okhsvLv c

/-- Okhsv → Oklab intermediate `l_new = toe_inv(l)` with `l = v·l_v`
(src/gamut.rs lines 344 and 351). -/
def okhsvLmid (c : Okhsva) : ℝ := toe_inv (c.value * okhsvLv c)

/-- Okhsv → Oklab intermediate `c = c·l_new/l` with `c = v·c_v`, `l = v·l_v`
(src/gamut.rs lines 345 and 352). -/
def okhsvCmid (c : Okhsva) : ℝ :=
  c.value * okhsvCv c * okhsvLmid c / (c.value * okhsvLv c)

/-- Okhsv → Oklab intermediate `rgb_scale` (src/gamut.rs line 355). -/
def okhsvScaleRgb (c : Okhsva) : LinearRgba :=
  oklabaToLinearRgba ⟨okhsvLvt c, okhsvA c * okhsvCvt c, okhsvB c * okhsvCvt c, 1⟩

/-- The maximum `rgb_scale.red.max(rgb_scale.green).max(rgb_scale.blue.max(0.))`
(src/gamut.rs lines 356-360). -/
def okhsvScaleMax (c : Okhsva) : ℝ :=
  max (max (okhsvScaleRgb c).red (okhsvScaleRgb c).green)
    (max (okhsvScaleRgb c).blue 0)

/-- Okhsv → Oklab intermediate `scale_l = (1 / max(...)).cbrt()`
(src/gamut.rs lines 356-361). -/
def okhsvScaleL (c : Okhsva) : ℝ := cbrt (1 / okhsvScaleMax c)

/-- src/gamut.rs `impl From<Okhsva> for Oklaba` (lines 320-368), assembled from
the intermediates above: output `(l·scale_l, c·scale_l·a_, c·scale_l·b_,
alpha)`, with `v == 0` short-circuiting to `Oklaba(0, 0, 0, alpha)`. -/
def okhsvaToOklaba (c : Okhsva) : Oklaba :=
  if c.value = 0 then ⟨0, 0, 0, c.alpha⟩
  else
    ⟨okhsvLmid c * okhsvScaleL c,
     okhsvCmid c * okhsvScaleL c * okhsvA c,
     okhsvCmid c * okhsvScaleL c * okhsvB c,
     c.alpha⟩

/-- Oklab → Okhsv intermediate `c = sqrt(a² + b²)` (src/gamut.rs line 372). -/
def labC (o : Oklaba) : ℝ := Real.sqrt (o.a * o.a + o.b * o.b)

/-- Oklab → Okhsv intermediate `a_ = a / c` (src/gamut.rs line 377). -/
def labAu (o : Oklaba) : ℝ := o.a / labC o

/-- Oklab → Okhsv intermediate `b_ = b / c` (src/gamut.rs line 378). -/
def labBu (o : Oklaba) : ℝ := o.b / labC o

/-- Oklab → Okhsv intermediate `h = 0.5 + 0.5·atan2(-b, -a)/π`
(src/gamut.rs line 381). -/
def labHue (o : Oklaba) : ℝ := 0.5 + 0.5 * atan2 (-o.b) (-o.a) / π

/-- Oklab → Okhsv intermediate `s_max` (src/gamut.rs lines 383-384). -/
def labSmax (o : Oklaba) : ℝ := (to_st (find_cusp (labAu o) (labBu o))).1

/-- Oklab → Okhsv intermediate `t_max` (src/gamut.rs lines 383-384). -/
def labTmax (o : Oklaba) : ℝ := (to_st (find_cusp (labAu o) (labBu o))).2

/-- Oklab → Okhsv intermediate `k = 1 - s_0 / s_max` (src/gamut.rs line 386). -/
def labK (o : Oklaba) : ℝ := 1 - s0 / labSmax o

/-- Oklab → Okhsv intermediate `t = t_max / (c + L·t_max)`
(src/gamut.rs line 389). -/
def labT (o : Oklaba) : ℝ := labTmax o / (labC o + o.lightness * labTmax o)

/-- Oklab → Okhsv intermediate `l_v = t·L` (src/gamut.rs line 390). -/
def labLv (o : Oklaba) : ℝ := labT o * o.lightness

/-- Oklab → Okhsv intermediate `c_v = t·c` (src/gamut.rs line 391). -/
def labCv (o : Oklaba) : ℝ := labT o * labC o

/-- Oklab → Okhsv intermediate `l_vt = toe_inv(l_v)` (src/gamut.rs line 393). -/
def labLvt (o : Oklaba) : ℝ := toe_inv (labLv o)

/-- Oklab → Okhsv intermediate `c_vt = c_v·l_vt/l_v` (src/gamut.rs line 394). -/
def labCvt (o : Oklaba) : ℝ := labCv o * labLvt o / labLv o

/-- Oklab → Okhsv intermediate `rgb_scale` (src/gamut.rs line 397). -/
def labScaleRgb (o : Oklaba) : LinearRgba :=
  oklabaToLinearRgba ⟨labLvt o, labAu o * labCvt o, labBu o * labCvt o, 1⟩

/-- Oklab → Okhsv intermediate `scale_l` (src/gamut.rs lines 398-403). -/
def labScaleL (o : Oklaba) : ℝ :=
  cbrt (1 / max (max (labScaleRgb o).red (labScaleRgb o).green)
    (max (labScaleRgb o).blue 0))

/-- src/gamut.rs `impl From<Oklaba> for Okhsva` (lines 370-419): on chroma 0 it
short-circuits to `Okhsva(0, 0, 0, alpha)`; otherwise `v = toe(l/scale_l)/l_v`
and `s = (s_0 + t_max)·c_v / (t_max·s_0 + t_max·k·c_v)`, hue `h·360`. -/
def oklabaToOkhsva (o : Oklaba) : Okhsva :=
  if labC o = 0 then ⟨0, 0, 0, o.alpha⟩
  else
    ⟨labHue o * 360,
     (s0 + labTmax o) * labCv o / (labTmax o * s0 + labTmax o * labK o * labCv o),
     toe (o.lightness / labScaleL o) / labLv o,
     o.alpha⟩

/-- src/app.rs `calculate_fallbacks` inner closure `gamut_clip`
(lines 459-471): in Oklch mode it returns the clipped color together with the
fallback flag, true when some RGB channel of the clipped color differs from
the input by more than 0.003 (`to_f32_array_no_alpha` excludes alpha);
otherwise it returns the plain per-channel clamp with flag false. -/
def app_gamut_clip (is_oklch : Bool) (color : LinearRgba) : LinearRgba × Prop :=
  if is_oklch then
    (gamut_clip_preserve_chroma color,
      0.003 < |(gamut_clip_preserve_chroma color).red - color.red| ∨
      0.003 < |(gamut_clip_preserve_chroma color).green - color.green| ∨
      0.003 < |(gamut_clip_preserve_chroma color).blue - color.blue|)
  else
    (clamp_rgba color, False)

/-- Modelled from the spec (§4.2): the Oklch hue of an Oklab color,
`H = atan2(b, a)` normalized to `[0, 360)` degrees. -/
def oklchHue (o : Oklaba) : ℝ :=
  let h := atan2 o.b o.a * (180 / π)
  if h < 0 then h + 360 else h

/-- The Oklch hue of a linear RGB color (spec §4.2 composed with §4.1). -/
def oklchHueOfRgba (c : LinearRgba) : ℝ := oklchHue (linearRgbaToOklaba c)

/-- Modelled from the spec (and from the upstream reference implementation that
src/gamut.rs cites in its header): the upper-half Halley correction with the
second-derivative terms computed from the first-order directions
`K = dL + dC·k` as `6·K²·l_`, matching the corresponding lines of
`compute_max_saturation`; this is the computation claim C3 describes. -/
def upperHalleyDeltaSpec (a b ll0 ll1 cc1 t : ℝ) : ℝ :=
  let dll := ll1 - ll0
  let dcc := cc1
  let k_l := 0.3963377774 * a + 0.2158037573 * b
  let k_m := -0.1055613458 * a - 0.0638541728 * b
  let k_s := -0.0894841775 * a - 1.2914855480 * b
  let l_dt := dll + dcc * k_l
  let m_dt := dll + dcc * k_m
  let s_dt := dll + dcc * k_s
  let ll := ll0 * (1 - t) + t * ll1
  let cc := t * cc1
  let l_ := ll + cc * k_l
  let m_ := ll + cc * k_m
  let s_ := ll + cc * k_s
  let l := l_ ^ 3
  let m := m_ ^ 3
  let s := s_ ^ 3
  let ldt := 3 * l_dt * l_ * l_
  let mdt := 3 * m_dt * m_ * m_
  let sdt := 3 * s_dt * s_ * s_
  let ldt2 := 6 * l_dt * l_dt * l_
  let mdt2 := 6 * m_dt * m_dt * m_
  let sdt2 := 6 * s_dt * s_dt * s_
  let r := 4.0767416621 * l - 3.3077115913 * m + 0.2309699292 * s - 1
  let r1 := 4.0767416621 * ldt - 3.3077115913 * mdt + 0.2309699292 * sdt
  let r2 := 4.0767416621 * ldt2 - 3.3077115913 * mdt2 + 0.2309699292 * sdt2
  let u_r := r1 / (r1 * r1 - 0.5 * r * r2)
  let t_r := -r * u_r
  let g := -1.2684380046 * l + 2.6097574011 * m - 0.3413193965 * s - 1
  let g1 := -1.2684380046 * ldt + 2.6097574011 * mdt - 0.3413193965 * sdt
  let g2 := -1.2684380046 * ldt2 + 2.6097574011 * mdt2 - 0.3413193965 * sdt2
  let u_g := g1 / (g1 * g1 - 0.5 * g * g2)
  let t_g := -g * u_g
  let bb := -0.0041960863 * l - 0.7034186147 * m + 1.7076147010 * s - 1
  let b1 := -0.0041960863 * ldt - 0.7034186147 * mdt + 1.7076147010 * sdt
  let b2 := -0.0041960863 * ldt2 - 0.7034186147 * mdt2 + 1.7076147010 * sdt2
  let u_b := b1 / (b1 * b1 - 0.5 * bb * b2)
  let t_b := -bb * u_b
  let t_r := if u_r ≥ 0 then t_r else f32Max
  let t_g := if u_g ≥ 0 then t_g else f32Max
  let t_b := if u_b ≥ 0 then t_b else f32Max
  min t_r (min t_g t_b)

lemma clamp_rgba_alpha (x : LinearRgba) :
    (clamp_rgba x).alpha = min (max x.alpha 0) 1 := rfl

lemma oklabaToLinearRgba_alpha (o : Oklaba) :
    (oklabaToLinearRgba o).alpha = o.alpha := rfl

lemma gamutClipTarget_alpha (rgba : LinearRgba) :
    (gamutClipTarget rgba).alpha = rgba.alpha := rfl

/-- C4: for every LinearRGBA input whose red, green and blue channels all lie
in [0,1], `gamut_clip_preserve_chroma` returns the input exactly unchanged
(alpha included), and hence gamut clipping is idempotent on in-gamut colors. -/
theorem claim4_in_gamut_identity (rgba : LinearRgba)
    (h1 : 0 ≤ rgba.red) (h2 : rgba.red ≤ 1)
    (h3 : 0 ≤ rgba.green) (h4 : rgba.green ≤ 1)
    (h5 : 0 ≤ rgba.blue) (h6 : rgba.blue ≤ 1) :
    gamut_clip_preserve_chroma rgba = rgba ∧
    gamut_clip_preserve_chroma (gamut_clip_preserve_chroma rgba) =
      gamut_clip_preserve_chroma rgba := by
  have h : gamut_clip_preserve_chroma rgba = rgba := by
    unfold gamut_clip_preserve_chroma
    exact if_pos ⟨h2, h4, h6, h1, h3, h5⟩
  exact ⟨h, by rw [h]; exact h⟩

/-- Witness for C4 at the in-gamut color (1/2, 1/3, 1/4, 1). -/
theorem claim4_witness :
    gamut_clip_preserve_chroma ⟨1/2, 1/3, 1/4, 1⟩ = ⟨1/2, 1/3, 1/4, 1⟩ ∧
    gamut_clip_preserve_chroma (gamut_clip_preserve_chroma ⟨1/2, 1/3, 1/4, 1⟩) =
      gamut_clip_preserve_chroma ⟨1/2, 1/3, 1/4, 1⟩ :=
  claim4_in_gamut_identity ⟨1/2, 1/3, 1/4, 1⟩ (by norm_num) (by norm_num)
    (by norm_num) (by norm_num) (by norm_num) (by norm_num)

/-- C2 (amended): gamut clipping preserves the alpha channel for every input
whose alpha already lies in [0,1]; for alpha outside [0,1] the defensive
`clamp_rgba` of the out-of-gamut path clamps it (see the counterexample). -/
theorem claim2_amended (rgba : LinearRgba)
    (h0 : 0 ≤ rgba.alpha) (h1 : rgba.alpha ≤ 1) :
    (gamut_clip_preserve_chroma rgba).alpha = rgba.alpha := by
  unfold gamut_clip_preserve_chroma
  by_cases h : rgba.red ≤ 1 ∧ rgba.green ≤ 1 ∧ rgba.blue ≤ 1 ∧
      0 ≤ rgba.red ∧ 0 ≤ rgba.green ∧ 0 ≤ rgba.blue
  · rw [if_pos h]
  · rw [if_neg h, clamp_rgba_alpha, oklabaToLinearRgba_alpha,
      gamutClipTarget_alpha, max_eq_left h0, min_eq_left h1]

/-- Witness for C2's amended theorem at the out-of-gamut color (2,0,0,1/2). -/
theorem claim2_witness :
    (gamut_clip_preserve_chroma ⟨2, 0, 0, 1/2⟩).alpha = (1/2 : ℝ) :=
  claim2_amended ⟨2, 0, 0, 1/2⟩ (by norm_num) (by norm_num)

/-- Counterexample for C2 as stated: with input alpha 2 (and an out-of-gamut
red channel so the fast-accept path is skipped), the returned alpha is the
clamped value 1, not the input value 2. -/
theorem claim2_counterexample :
    (gamut_clip_preserve_chroma ⟨2, 0, 0, 2⟩).alpha ≠
      (⟨2, 0, 0, 2⟩ : LinearRgba).alpha := by
  unfold gamut_clip_preserve_chroma
  rw [if_neg fun h => absurd h.1 (by norm_num)]
  rw [clamp_rgba_alpha, oklabaToLinearRgba_alpha, gamutClipTarget_alpha]
  show min (max (2:ℝ) 0) 1 ≠ 2
  norm_num

/-- C8: degenerate inputs short-circuit to the defined neutral result before
any division: Okhsv value 0 maps to `Oklaba(0,0,0,alpha)` exactly, and an
Oklab color with a = b = 0 (chroma 0) maps to the neutral
`Okhsva(0,0,0,alpha)` exactly. -/
theorem claim8_degenerate_neutral :
    (∀ h s α : ℝ, okhsvaToOklaba ⟨h, s, 0, α⟩ = ⟨0, 0, 0, α⟩) ∧
    (∀ L α : ℝ, oklabaToOkhsva ⟨L, 0, 0, α⟩ = ⟨0, 0, 0, α⟩) := by
  constructor
  · intro h s α
    unfold okhsvaToOklaba
    exact if_pos rfl
  · intro L α
    unfold oklabaToOkhsva
    rw [if_pos (by simp [labC])]

/-- C10: the zero-chroma branch of Oklab → Okhsv ignores the input lightness,
returning hue 0, saturation 0 and value 0 with alpha preserved; consequently
it is not an inverse of Okhsv → Oklab at S = 0 with V > 0. -/
theorem claim10_zero_chroma_discards_lightness :
    (∀ L α : ℝ, oklabaToOkhsva ⟨L, 0, 0, α⟩ = ⟨0, 0, 0, α⟩) ∧
    oklabaToOkhsva (okhsvaToOklaba ⟨123, 0, 3/4, 1⟩) ≠ ⟨123, 0, 3/4, 1⟩ := by
  constructor
  · intro L α
    unfold oklabaToOkhsva
    rw [if_pos (by simp [labC])]
  · have h1 : okhsvCmid ⟨123, 0, 3/4, 1⟩ = 0 := by
      simp [okhsvCmid, okhsvCv]
    have h2 : okhsvaToOklaba ⟨123, 0, 3/4, 1⟩ =
        ⟨okhsvLmid ⟨123, 0, 3/4, 1⟩ * okhsvScaleL ⟨123, 0, 3/4, 1⟩, 0, 0, 1⟩ := by
      unfold okhsvaToOklaba
      rw [if_neg (by norm_num), h1]
      norm_num
    have h3 : oklabaToOkhsva (okhsvaToOklaba ⟨123, 0, 3/4, 1⟩) =
        ⟨0, 0, 0, 1⟩ := by
      rw [h2]
      unfold oklabaToOkhsva
      rw [if_pos (by simp [labC])]
    rw [h3]
    intro heq
    have hv := congrArg Okhsva.value heq
    norm_num at hv

/-- C9: for a unit hue direction, `find_cusp` returns the pair whose first
component is the cube root of the reciprocal of the largest linear RGB channel
of the Oklab color `(1, S_cusp·a, S_cusp·b)` with
`S_cusp = compute_max_saturation a b`, and whose second component is
`L_cusp · S_cusp`. -/
theorem claim9_find_cusp_structure (a b : ℝ) (hab : a ^ 2 + b ^ 2 = 1) :
    find_cusp a b =
      (cbrt (1 / max
          (max (oklabaToLinearRgba ⟨1, compute_max_saturation a b * a,
              compute_max_saturation a b * b, 1⟩).red
            (oklabaToLinearRgba ⟨1, compute_max_saturation a b * a,
              compute_max_saturation a b * b, 1⟩).green)
          (oklabaToLinearRgba ⟨1, compute_max_saturation a b * a,
            compute_max_saturation a b * b, 1⟩).blue),
       cbrt (1 / max
          (max (oklabaToLinearRgba ⟨1, compute_max_saturation a b * a,
              compute_max_saturation a b * b, 1⟩).red
            (oklabaToLinearRgba ⟨1, compute_max_saturation a b * a,
              compute_max_saturation a b * b, 1⟩).green)
          (oklabaToLinearRgba ⟨1, compute_max_saturation a b * a,
            compute_max_saturation a b * b, 1⟩).blue) *
         compute_max_saturation a b) := rfl

/-- Witness for C9 at the unit direction (1, 0). -/
theorem claim9_witness :
    find_cusp 1 0 =
      (cbrt (1 / max
          (max (oklabaToLinearRgba ⟨1, compute_max_saturation 1 0 * 1,
              compute_max_saturation 1 0 * 0, 1⟩).red
            (oklabaToLinearRgba ⟨1, compute_max_saturation 1 0 * 1,
              compute_max_saturation 1 0 * 0, 1⟩).green)
          (oklabaToLinearRgba ⟨1, compute_max_saturation 1 0 * 1,
            compute_max_saturation 1 0 * 0, 1⟩).blue),
       cbrt (1 / max
          (max (oklabaToLinearRgba ⟨1, compute_max_saturation 1 0 * 1,
              compute_max_saturation 1 0 * 0, 1⟩).red
            (oklabaToLinearRgba ⟨1, compute_max_saturation 1 0 * 1,
              compute_max_saturation 1 0 * 0, 1⟩).green)
          (oklabaToLinearRgba ⟨1, compute_max_saturation 1 0 * 1,
            compute_max_saturation 1 0 * 0, 1⟩).blue) *
         compute_max_saturation 1 0) :=
  claim9_find_cusp_structure 1 0 (by norm_num)

/-- C1 (amended): when every RGB channel of the clipped result is within 0.003
of the input, the app-level fallback computation does not flag the color as a
fallback — but the color it returns is still the clipped value, never the
original input. -/
theorem claim1_amended (color : LinearRgba)
    (hr : |(gamut_clip_preserve_chroma color).red - color.red| < 0.003)
    (hg : |(gamut_clip_preserve_chroma color).green - color.green| < 0.003)
    (hb : |(gamut_clip_preserve_chroma color).blue - color.blue| < 0.003) :
    (app_gamut_clip true color).1 = gamut_clip_preserve_chroma color ∧
    ¬ (app_gamut_clip true color).2 := by
  unfold app_gamut_clip
  refine ⟨rfl, ?_⟩
  rintro (h | h | h) <;> linarith

/-- Witness for C1's amended theorem at an in-gamut color, where the clipped
result equals the input so all channel differences vanish. -/
theorem claim1_witness :
    (app_gamut_clip true ⟨1/2, 1/2, 1/2, 1⟩).1 =
      gamut_clip_preserve_chroma ⟨1/2, 1/2, 1/2, 1⟩ ∧
    ¬ (app_gamut_clip true ⟨1/2, 1/2, 1/2, 1⟩).2 := by
  have h : gamut_clip_preserve_chroma ⟨1/2, 1/2, 1/2, 1⟩ = ⟨1/2, 1/2, 1/2, 1⟩ := by
    unfold gamut_clip_preserve_chroma
    exact if_pos (by norm_num)
  exact claim1_amended ⟨1/2, 1/2, 1/2, 1⟩ (by rw [h]; norm_num)
    (by rw [h]; norm_num) (by rw [h]; norm_num)

/-- C3: the upper-half Halley correction actually computed by
`find_gamut_intersection` differs from the one the claim describes.  Because
the Rust `let l_dt = 3.0 * l_dt * l_ * l_` shadows the first-derivative
direction, the second-derivative lines compute `6·(3K·l_²)²·l_` instead of
`6·K²·l_`; at the concrete upper-half configuration below the two corrections
disagree. -/
theorem claim3_code_divergence :
    upperHalleyDelta (3/5) (4/5) (1/2) 1 (1/2) (1/2) ≠
      upperHalleyDeltaSpec (3/5) (4/5) (1/2) 1 (1/2) (1/2) := by
  unfold upperHalleyDelta upperHalleyDeltaSpec
  norm_num

lemma toe_disc_pos (l : ℝ) :
    0 < (tK3 * l - tK1) * (tK3 * l - tK1) + 4 * tK2 * tK3 * l := by
  have e : (tK3 * l - tK1) * (tK3 * l - tK1) + 4 * tK2 * tK3 * l =
      (tK3 * l - tK1 + 2 * tK2) ^ 2 + 4 * tK2 * (tK1 - tK2) := by ring
  have hc : (0:ℝ) < 4 * tK2 * (tK1 - tK2) := by norm_num [tK1, tK2]
  rw [e]
  nlinarith [sq_nonneg (tK3 * l - tK1 + 2 * tK2)]

lemma toe_sqrt_gt (l : ℝ) :
    |tK3 * l - tK1 + 2 * tK2| <
      Real.sqrt ((tK3 * l - tK1) * (tK3 * l - tK1) + 4 * tK2 * tK3 * l) := by
  have hlt : (tK3 * l - tK1 + 2 * tK2) ^ 2 <
      (tK3 * l - tK1) * (tK3 * l - tK1) + 4 * tK2 * tK3 * l := by
    have hc : (0:ℝ) < 4 * tK2 * (tK1 - tK2) := by norm_num [tK1, tK2]
    nlinarith
  calc |tK3 * l - tK1 + 2 * tK2| =
      Real.sqrt ((tK3 * l - tK1 + 2 * tK2) ^ 2) := (Real.sqrt_sq_eq_abs _).symm
    _ < Real.sqrt ((tK3 * l - tK1) * (tK3 * l - tK1) + 4 * tK2 * tK3 * l) :=
      Real.sqrt_lt_sqrt (sq_nonneg _) hlt

lemma toe_add_tK2_pos (l : ℝ) : 0 < toe l + tK2 := by
  have h1 := toe_sqrt_gt l
  have h2 := neg_abs_le (tK3 * l - tK1 + 2 * tK2)
  unfold toe
  nlinarith

lemma toe_quadratic (l : ℝ) :
    toe l * toe l + (tK1 - tK3 * l) * toe l - tK2 * tK3 * l = 0 := by
  have hs2 : Real.sqrt ((tK3 * l - tK1) * (tK3 * l - tK1) + 4 * tK2 * tK3 * l) ^ 2 =
      (tK3 * l - tK1) * (tK3 * l - tK1) + 4 * tK2 * tK3 * l :=
    Real.sq_sqrt (toe_disc_pos l).le
  unfold toe
  linear_combination (1/4) * hs2

lemma toe_nonneg {l : ℝ} (h : 0 ≤ l) : 0 ≤ toe l := by
  have h1 : |tK3 * l - tK1| ≤
      Real.sqrt ((tK3 * l - tK1) * (tK3 * l - tK1) + 4 * tK2 * tK3 * l) := by
    have e : (tK3 * l - tK1) * (tK3 * l - tK1) = (tK3 * l - tK1) ^ 2 := by ring
    calc |tK3 * l - tK1| = Real.sqrt ((tK3 * l - tK1) ^ 2) :=
        (Real.sqrt_sq_eq_abs _).symm
      _ ≤ Real.sqrt ((tK3 * l - tK1) * (tK3 * l - tK1) + 4 * tK2 * tK3 * l) := by
        apply Real.sqrt_le_sqrt
        have : (0:ℝ) ≤ 4 * tK2 * tK3 * l := by
          have : (0:ℝ) < tK2 := by norm_num [tK2]
          have : (0:ℝ) < tK3 := by norm_num [tK3, tK1, tK2]
          positivity
        linarith [e]
  have h2 := neg_abs_le (tK3 * l - tK1)
  unfold toe
  nlinarith

lemma toe_inv_toe (l : ℝ) : toe_inv (toe l) = l := by
  have hq := toe_quadratic l
  have hden := toe_add_tK2_pos l
  have hK3 : (0:ℝ) < tK3 := by norm_num [tK3, tK1, tK2]
  unfold toe_inv
  rw [div_eq_iff (by positivity)]
  linear_combination hq

lemma toe_toe_inv {lr : ℝ} (h : -tK2 < lr) : toe (toe_inv lr) = lr := by
  have hden : (0:ℝ) < lr + tK2 := by linarith
  have hK3 : (0:ℝ) < tK3 := by norm_num [tK3, tK1, tK2]
  have hx : tK3 * toe_inv lr * (lr + tK2) = lr * (lr + tK1) := by
    unfold toe_inv
    field_simp
    ring
  have hsq : (2 * lr - (tK3 * toe_inv lr - tK1)) ^ 2 =
      (tK3 * toe_inv lr - tK1) * (tK3 * toe_inv lr - tK1) +
        4 * tK2 * tK3 * toe_inv lr := by
    linear_combination (-4 : ℝ) * hx
  have hpos : 0 ≤ 2 * lr - (tK3 * toe_inv lr - tK1) := by
    have hq : 0 < lr * lr + 2 * tK2 * lr + tK1 * tK2 := by
      have hc : (0:ℝ) < tK2 * (tK1 - tK2) := by norm_num [tK1, tK2]
      nlinarith [sq_nonneg (lr + tK2)]
    nlinarith [hx]
  unfold toe
  rw [show (tK3 * toe_inv lr - tK1) * (tK3 * toe_inv lr - tK1) +
      4 * tK2 * tK3 * toe_inv lr = (2 * lr - (tK3 * toe_inv lr - tK1)) ^ 2 from
      hsq.symm, Real.sqrt_sq hpos]
  ring

lemma toe_strictMonoOn : StrictMonoOn toe (Set.Icc (0:ℝ) 1) := by
  intro x hx y hy hxy
  have hK3 : (0:ℝ) < tK3 := by norm_num [tK3, tK1, tK2]
  have hdx := toe_disc_pos x
  have hdy := toe_disc_pos y
  have hsx : 0 < Real.sqrt ((tK3 * x - tK1) * (tK3 * x - tK1) + 4 * tK2 * tK3 * x) :=
    Real.sqrt_pos.2 hdx
  have hsy : 0 < Real.sqrt ((tK3 * y - tK1) * (tK3 * y - tK1) + 4 * tK2 * tK3 * y) :=
    Real.sqrt_pos.2 hdy
  have hsx2 : Real.sqrt ((tK3 * x - tK1) * (tK3 * x - tK1) + 4 * tK2 * tK3 * x) ^ 2 =
      (tK3 * x - tK1) * (tK3 * x - tK1) + 4 * tK2 * tK3 * x := Real.sq_sqrt hdx.le
  have hsy2 : Real.sqrt ((tK3 * y - tK1) * (tK3 * y - tK1) + 4 * tK2 * tK3 * y) ^ 2 =
      (tK3 * y - tK1) * (tK3 * y - tK1) + 4 * tK2 * tK3 * y := Real.sq_sqrt hdy.le
  have hAx : 0 < Real.sqrt ((tK3 * x - tK1) * (tK3 * x - tK1) + 4 * tK2 * tK3 * x) +
      (tK3 * x - tK1 + 2 * tK2) := by
    have := toe_sqrt_gt x
    have := neg_abs_le (tK3 * x - tK1 + 2 * tK2)
    linarith
  have hAy : 0 < Real.sqrt ((tK3 * y - tK1) * (tK3 * y - tK1) + 4 * tK2 * tK3 * y) +
      (tK3 * y - tK1 + 2 * tK2) := by
    have := toe_sqrt_gt y
    have := neg_abs_le (tK3 * y - tK1 + 2 * tK2)
    linarith
  have hΔ : 0 < tK3 * (y - x) := by
    have : 0 < y - x := by linarith
    positivity
  have e : (Real.sqrt ((tK3 * x - tK1) * (tK3 * x - tK1) + 4 * tK2 * tK3 * x) +
        Real.sqrt ((tK3 * y - tK1) * (tK3 * y - tK1) + 4 * tK2 * tK3 * y)) *
      (tK3 * (y - x) +
        Real.sqrt ((tK3 * y - tK1) * (tK3 * y - tK1) + 4 * tK2 * tK3 * y) -
        Real.sqrt ((tK3 * x - tK1) * (tK3 * x - tK1) + 4 * tK2 * tK3 * x)) =
      tK3 * (y - x) *
        ((Real.sqrt ((tK3 * x - tK1) * (tK3 * x - tK1) + 4 * tK2 * tK3 * x) +
            (tK3 * x - tK1 + 2 * tK2)) +
          (Real.sqrt ((tK3 * y - tK1) * (tK3 * y - tK1) + 4 * tK2 * tK3 * y) +
            (tK3 * y - tK1 + 2 * tK2))) := by
    linear_combination hsy2 - hsx2
  have key : 0 < tK3 * (y - x) +
      Real.sqrt ((tK3 * y - tK1) * (tK3 * y - tK1) + 4 * tK2 * tK3 * y) -
      Real.sqrt ((tK3 * x - tK1) * (tK3 * x - tK1) + 4 * tK2 * tK3 * x) := by
    by_contra hG
    push_neg at hG
    nlinarith [mul_pos hΔ (add_pos hAx hAy), add_pos hsx hsy]
  unfold toe
  linarith

/-- C5 (amended): `toe_inv ∘ toe` is the identity everywhere (in particular on
[-0.1, 1.1]); `toe ∘ toe_inv` is the identity on (-K2, 1.1] — it fails below
-K2 = -0.03 (see the counterexample at L = -0.1); `toe` is strictly increasing
on [0,1]; and the radicand inside `toe` is nonnegative on [0,1] (no NaN). -/
theorem claim5_amended :
    (∀ L : ℝ, -(1/10) ≤ L → L ≤ 11/10 → toe_inv (toe L) = L) ∧
    (∀ L : ℝ, -(3/100) < L → L ≤ 11/10 → toe (toe_inv L) = L) ∧
    StrictMonoOn toe (Set.Icc (0:ℝ) 1) ∧
    (∀ L : ℝ, 0 ≤ L → L ≤ 1 →
      0 ≤ (tK3 * L - tK1) * (tK3 * L - tK1) + 4 * tK2 * tK3 * L) := by
  refine ⟨fun L _ _ => toe_inv_toe L, fun L hL _ => ?_, toe_strictMonoOn,
    fun L _ _ => (toe_disc_pos L).le⟩
  have e : tK2 = (3/100 : ℝ) := by norm_num [tK2]
  exact toe_toe_inv (by rw [e]; linarith)

/-- Witness for C5's amended theorem: both round trips at L = 1/2, strict
monotonicity between 1/4 and 3/4, and the radicand at 1/2. -/
theorem claim5_witness :
    toe_inv (toe (1/2)) = 1/2 ∧ toe (toe_inv (1/2)) = 1/2 ∧
    toe (1/4) < toe (3/4) ∧
    0 ≤ (tK3 * (1/2) - tK1) * (tK3 * (1/2) - tK1) + 4 * tK2 * tK3 * (1/2) :=
  ⟨claim5_amended.1 (1/2) (by norm_num) (by norm_num),
   claim5_amended.2.1 (1/2) (by norm_num) (by norm_num),
   claim5_amended.2.2.1 (Set.mem_Icc.2 ⟨by norm_num, by norm_num⟩)
     (Set.mem_Icc.2 ⟨by norm_num, by norm_num⟩) (by norm_num),
   claim5_amended.2.2.2 (1/2) (by norm_num) (by norm_num)⟩

/-- Counterexample for C5 as stated: at L = -0.1 (inside the claimed domain
[-0.1, 1.1]) the round trip `toe (toe_inv L)` misses L by far more than 1e-5:
`toe_inv (-0.1)` is positive, and `toe` of a nonnegative number is
nonnegative, so the round trip lands at distance at least 0.1 from -0.1. -/
theorem claim5_counterexample :
    ¬ |toe (toe_inv (-(1/10))) - (-(1/10))| < 1/100000 := by
  have h1 : toe_inv (-(1/10)) = 5459/42210 := by
    unfold toe_inv
    rw [show tK1 = 0.206 from rfl, show tK2 = 0.03 from rfl,
      show tK3 = (1 + 0.206) / (1 + 0.03) from rfl]
    norm_num
  have h2 : 0 ≤ toe (5459/42210) := toe_nonneg (by norm_num)
  rw [h1, not_lt]
  calc (1:ℝ)/100000 ≤ toe (5459/42210) - (-(1/10)) := by linarith
    _ ≤ |toe (5459/42210) - (-(1/10))| := le_abs_self _

lemma find_cusp_fst (a b : ℝ) : (find_cusp a b).1 = cbrt (1 / cuspMaxRgb a b) := rfl

lemma find_cusp_snd (a b : ℝ) :
    (find_cusp a b).2 = cbrt (1 / cuspMaxRgb a b) * compute_max_saturation a b := rfl

/-- When the input's Oklab lightness is nonpositive and the cusp data for its
hue direction are positive, the clip takes the lower-half branch of
`find_gamut_intersection` with anchor lightness 0 and the intersection
parameter degenerates to `t = 0`. -/
lemma clipT_eq_zero_of_nonpos_lightness (rgba : LinearRgba)
    (hL : clipL rgba ≤ 0)
    (hsc : 0 < compute_max_saturation (clipA rgba) (clipB rgba))
    (hM : 0 < cuspMaxRgb (clipA rgba) (clipB rgba)) :
    clipT rgba = 0 := by
  have hL0 : clipL0 rgba = 0 := by
    unfold clipL0
    rw [max_eq_right hL]
    exact min_eq_left (by norm_num)
  have hr : 0 < cbrt (1 / cuspMaxRgb (clipA rgba) (clipB rgba)) :=
    cbrt_pos (by positivity)
  have hcc : 0 < clipC rgba := lt_of_lt_of_le (by norm_num) (le_max_left _ _)
  simp only [clipT, find_gamut_intersection, find_cusp_fst, find_cusp_snd, hL0]
  split_ifs with hb
  · simp
  · exfalso
    apply hb
    have h1 : 0 ≤ -(clipL rgba) * (cbrt (1 / cuspMaxRgb (clipA rgba) (clipB rgba)) *
        compute_max_saturation (clipA rgba) (clipB rgba)) :=
      mul_nonneg (neg_nonneg.2 hL) (mul_pos hr hsc).le
    nlinarith [mul_pos hr hcc]

/-- An out-of-gamut input whose intersection parameter and anchor lightness
both vanish is clipped to black, with alpha defensively clamped. -/
lemma gamut_clip_eq_black (rgba : LinearRgba)
    (hout : ¬(rgba.red ≤ 1 ∧ rgba.green ≤ 1 ∧ rgba.blue ≤ 1 ∧
      0 ≤ rgba.red ∧ 0 ≤ rgba.green ∧ 0 ≤ rgba.blue))
    (hT : clipT rgba = 0) (hL0 : clipL0 rgba = 0) :
    gamut_clip_preserve_chroma rgba = ⟨0, 0, 0, min (max rgba.alpha 0) 1⟩ := by
  unfold gamut_clip_preserve_chroma
  rw [if_neg hout]
  have htgt : gamutClipTarget rgba = ⟨0, 0, 0, rgba.alpha⟩ := by
    unfold gamutClipTarget
    rw [hT, hL0]
    norm_num
  rw [htgt]
  have hrgb : oklabaToLinearRgba ⟨0, 0, 0, rgba.alpha⟩ = ⟨0, 0, 0, rgba.alpha⟩ := by
    unfold oklabaToLinearRgba
    norm_num
  rw [hrgb]
  unfold clamp_rgba
  norm_num

/-- A barely out-of-gamut input (all channels ≈ -0.001): the exact preimage
under the LMS matrix of the cube triple ((-1/10)³, (-1/10)³,
(-100001/1000000)³), so that its Oklab coordinates are exact rationals. -/
def c1x : LinearRgba :=
  ⟨-(9776759574598265003504121836819479 / 9776691833500194096351772251100000000),
   -(195531834516278842789110866873191 / 195533836670003881927035445022000000),
   -(4888596341250993796287447404522421 / 4888345916750097048175886125550000000),
   1⟩

lemma c1x_oklab : linearRgbaToOklaba c1x =
    ⟨-(249999988194883/2500000000000000),
     -(4505937099/10000000000000000),
     402472883/500000000000000, 1⟩ := by
  have h1 : (0.4122214708 * c1x.red + 0.5363325363 * c1x.green +
      0.0514459929 * c1x.blue : ℝ) = -((1/10) ^ 3) := by
    unfold c1x
    norm_num
  have h2 : (0.2119034982 * c1x.red + 0.6806995451 * c1x.green +
      0.1073969566 * c1x.blue : ℝ) = -((1/10) ^ 3) := by
    unfold c1x
    norm_num
  have h3 : (0.0883024619 * c1x.red + 0.2817188376 * c1x.green +
      0.6299787005 * c1x.blue : ℝ) = -((100001/1000000) ^ 3) := by
    unfold c1x
    norm_num
  simp only [linearRgbaToOklaba, h1, h2, h3,
    cbrt_neg_cube (show (0:ℝ) ≤ 1/10 by norm_num),
    cbrt_neg_cube (show (0:ℝ) ≤ 100001/1000000 by norm_num)]
  have ha : c1x.alpha = 1 := rfl
  rw [ha]
  norm_num

lemma c1x_clipC : clipC c1x = 1/100000 := by
  unfold clipC
  rw [c1x_oklab]
  have hs : Real.sqrt ((-(4505937099/10000000000000000) : ℝ) *
      (-(4505937099/10000000000000000)) +
      (402472883/500000000000000 : ℝ) * (402472883/500000000000000)) ≤
      0.00001 := by
    have hle : ((-(4505937099/10000000000000000) : ℝ) *
        (-(4505937099/10000000000000000)) +
        (402472883/500000000000000 : ℝ) * (402472883/500000000000000)) ≤
        (0.00001 : ℝ) ^ 2 := by norm_num
    calc Real.sqrt _ ≤ Real.sqrt ((0.00001 : ℝ) ^ 2) := Real.sqrt_le_sqrt hle
      _ = 0.00001 := Real.sqrt_sq (by norm_num)
  calc max 0.00001 (Real.sqrt _) = (0.00001 : ℝ) := max_eq_left hs
    _ = 1/100000 := by norm_num

lemma c1x_clipA : clipA c1x = -(4505937099/100000000000) := by
  unfold clipA
  rw [c1x_oklab, c1x_clipC]
  norm_num

lemma c1x_clipB : clipB c1x = 402472883/5000000000 := by
  unfold clipB
  rw [c1x_oklab, c1x_clipC]
  norm_num

lemma c1x_clip_black : gamut_clip_preserve_chroma c1x = ⟨0, 0, 0, 1⟩ := by
  have hL : clipL c1x ≤ 0 := by
    unfold clipL
    rw [c1x_oklab]
    norm_num
  have hL0 : clipL0 c1x = 0 := by
    unfold clipL0
    rw [max_eq_right hL]
    exact min_eq_left (by norm_num)
  have hsc : 0 < compute_max_saturation (clipA c1x) (clipB c1x) := by
    rw [c1x_clipA, c1x_clipB]
    norm_num [compute_max_saturation, computeMaxSaturationWith]
  have hM : 0 < cuspMaxRgb (clipA c1x) (clipB c1x) := by
    rw [c1x_clipA, c1x_clipB]
    norm_num [cuspMaxRgb, compute_max_saturation, computeMaxSaturationWith,
      oklabaToLinearRgba, lt_max_iff]
  have hT := clipT_eq_zero_of_nonpos_lightness c1x hL hsc hM
  have hout : ¬(c1x.red ≤ 1 ∧ c1x.green ≤ 1 ∧ c1x.blue ≤ 1 ∧
      0 ≤ c1x.red ∧ 0 ≤ c1x.green ∧ 0 ≤ c1x.blue) := by
    intro h
    exact absurd h.2.2.2.1 (by unfold c1x; norm_num)
  rw [gamut_clip_eq_black c1x hout hT hL0]
  have ha : c1x.alpha = 1 := rfl
  rw [ha]
  norm_num

/-- Counterexample for C1 as stated: this out-of-gamut input is clipped to a
result within 0.003 of the input in every channel, yet
`gamut_clip_preserve_chroma` returns the clipped value, not the original
input — the function contains no perceptual short-circuit at all (the 0.003
threshold in src/app.rs only drives the `is_fallback` flag). -/
theorem claim1_counterexample :
    (|(gamut_clip_preserve_chroma c1x).red - c1x.red| < 0.003 ∧
     |(gamut_clip_preserve_chroma c1x).green - c1x.green| < 0.003 ∧
     |(gamut_clip_preserve_chroma c1x).blue - c1x.blue| < 0.003 ∧
     |(gamut_clip_preserve_chroma c1x).alpha - c1x.alpha| < 0.003) ∧
    gamut_clip_preserve_chroma c1x ≠ c1x := by
  rw [c1x_clip_black]
  constructor
  · unfold c1x
    norm_num [abs_lt]
  · intro heq
    have := congrArg LinearRgba.red heq
    unfold c1x at this
    norm_num at this

lemma toe_inv_pos {x : ℝ} (hx : 0 < x) : 0 < toe_inv x := by
  unfold toe_inv
  apply div_pos
  · have : (0:ℝ) < tK1 := by norm_num [tK1]
    nlinarith
  · have h3 : (0:ℝ) < tK3 := by norm_num [tK3, tK1, tK2]
    have h2 : (0:ℝ) < tK2 := by norm_num [tK2]
    nlinarith

lemma labC_unit {A B CO LO a : ℝ} (hAB : A * A + B * B = 1) (hCO : 0 ≤ CO) :
    labC ⟨LO, CO * A, CO * B, a⟩ = CO := by
  show Real.sqrt (CO * A * (CO * A) + CO * B * (CO * B)) = CO
  have e : CO * A * (CO * A) + CO * B * (CO * B) = CO ^ 2 := by
    linear_combination (CO ^ 2) * hAB
  rw [e, Real.sqrt_sq hCO]

lemma labAu_unit {A B CO LO a : ℝ} (hAB : A * A + B * B = 1) (hCO : 0 < CO) :
    labAu ⟨LO, CO * A, CO * B, a⟩ = A := by
  unfold labAu
  rw [labC_unit hAB hCO.le]
  exact mul_div_cancel_left₀ _ hCO.ne'

lemma labBu_unit {A B CO LO a : ℝ} (hAB : A * A + B * B = 1) (hCO : 0 < CO) :
    labBu ⟨LO, CO * A, CO * B, a⟩ = B := by
  unfold labBu
  rw [labC_unit hAB hCO.le]
  exact mul_div_cancel_left₀ _ hCO.ne'

/-- Counterexample for C6 as stated: at (H,S,V) = (200, 0, 1/2) the forward
conversion collapses chroma to 0 exactly, so the reverse conversion takes its
neutral branch and returns (0,0,0): H and V are lost by far more than 1e-3. -/
theorem claim6_counterexample :
    oklabaToOkhsva (okhsvaToOklaba ⟨200, 0, 1/2, 1⟩) = ⟨0, 0, 0, 1⟩ ∧
    ¬ (|(oklabaToOkhsva (okhsvaToOklaba ⟨200, 0, 1/2, 1⟩)).hue - 200| < 1/1000 ∧
       |(oklabaToOkhsva (okhsvaToOklaba ⟨200, 0, 1/2, 1⟩)).saturation - 0| < 1/1000 ∧
       |(oklabaToOkhsva (okhsvaToOklaba ⟨200, 0, 1/2, 1⟩)).value - 1/2| < 1/1000) := by
  have hcv : okhsvCv ⟨200, 0, 1/2, 1⟩ = 0 := by
    simp [okhsvCv]
  have hcm : okhsvCmid ⟨200, 0, 1/2, 1⟩ = 0 := by
    simp [okhsvCmid, okhsvCv]
  have hfwd : okhsvaToOklaba ⟨200, 0, 1/2, 1⟩ =
      ⟨okhsvLmid ⟨200, 0, 1/2, 1⟩ * okhsvScaleL ⟨200, 0, 1/2, 1⟩, 0, 0, 1⟩ := by
    unfold okhsvaToOklaba
    rw [if_neg (by norm_num), hcm]
    norm_num
  have hrt : oklabaToOkhsva (okhsvaToOklaba ⟨200, 0, 1/2, 1⟩) = ⟨0, 0, 0, 1⟩ := by
    rw [hfwd]
    unfold oklabaToOkhsva
    rw [if_pos (by simp [labC])]
  refine ⟨hrt, ?_⟩
  rw [hrt]
  rintro ⟨-, -, h3⟩
  rw [abs_lt] at h3
  norm_num at h3

set_option maxHeartbeats 2000000 in
lemma cms_hue90_bounds : (0.204357:ℝ) < compute_max_saturation 0 1 ∧
    compute_max_saturation 0 1 < 0.204358 := by
  constructor <;> norm_num [compute_max_saturation, computeMaxSaturationWith]

set_option maxHeartbeats 2000000 in
lemma cuspMaxRgb_hue90_lo : (1.5524509:ℝ) < cuspMaxRgb 0 1 := by
  norm_num [cuspMaxRgb, compute_max_saturation, computeMaxSaturationWith,
    oklabaToLinearRgba, lt_max_iff]

set_option maxHeartbeats 4000000 in
lemma cuspMaxRgb_hue90_hi : cuspMaxRgb 0 1 < 1.5524510 := by
  unfold cuspMaxRgb
  apply max_lt (max_lt _ _) _ <;>
    norm_num [compute_max_saturation, computeMaxSaturationWith,
      oklabaToLinearRgba]

lemma cuspMaxRgb_hue90_pos : (0:ℝ) < cuspMaxRgb 0 1 :=
  lt_trans (by norm_num) cuspMaxRgb_hue90_lo

set_option maxHeartbeats 1600000 in
/-- C6 (amended): for hue strictly inside (0°, 360°), S and V in (0,1], and
nondegenerate gamut data for the hue (positive max saturation, cusp color with
largest channel above 1, positive scale maximum), the Okhsv → Oklab → Okhsv
round trip reproduces H, S, V and alpha exactly — in particular within the
claimed 1e-3.  At S = 0 or V = 0 the claim fails (see the counterexample). -/
theorem claim6_amended (H S V a : ℝ)
    (hH0 : 0 < H) (hH1 : H < 360) (hS0 : 0 < S) (hS1 : S ≤ 1)
    (hV0 : 0 < V) (hV1 : V ≤ 1)
    (hsc : 0 < compute_max_saturation (okhsvA ⟨H, S, V, a⟩) (okhsvB ⟨H, S, V, a⟩))
    (hM1 : 1 < cuspMaxRgb (okhsvA ⟨H, S, V, a⟩) (okhsvB ⟨H, S, V, a⟩))
    (hsm : 0 < okhsvScaleMax ⟨H, S, V, a⟩) :
    oklabaToOkhsva (okhsvaToOklaba ⟨H, S, V, a⟩) = ⟨H, S, V, a⟩ := by
  have hs0 : (0:ℝ) < s0 := by norm_num [s0]
  have hMpos : (0:ℝ) < cuspMaxRgb (okhsvA ⟨H, S, V, a⟩) (okhsvB ⟨H, S, V, a⟩) :=
    lt_trans one_pos hM1
  have hrpos : 0 < cbrt (1 / cuspMaxRgb (okhsvA ⟨H, S, V, a⟩) (okhsvB ⟨H, S, V, a⟩)) :=
    cbrt_pos (one_div_pos.mpr hMpos)
  have hsmax : okhsvSmax ⟨H, S, V, a⟩ =
      compute_max_saturation (okhsvA ⟨H, S, V, a⟩) (okhsvB ⟨H, S, V, a⟩) :=
    mul_div_cancel_left₀ _ hrpos.ne'
  have hrlt1 : cbrt (1 / cuspMaxRgb (okhsvA ⟨H, S, V, a⟩) (okhsvB ⟨H, S, V, a⟩)) < 1 := by
    have h1 : 1 / cuspMaxRgb (okhsvA ⟨H, S, V, a⟩) (okhsvB ⟨H, S, V, a⟩) < 1 ^ 3 := by
      rw [one_pow]
      exact (div_lt_one hMpos).mpr hM1
    exact cbrt_lt (one_div_pos.mpr hMpos).le h1
  have htm_eq : okhsvTmax ⟨H, S, V, a⟩ =
      cbrt (1 / cuspMaxRgb (okhsvA ⟨H, S, V, a⟩) (okhsvB ⟨H, S, V, a⟩)) *
        compute_max_saturation (okhsvA ⟨H, S, V, a⟩) (okhsvB ⟨H, S, V, a⟩) /
        (1 - cbrt (1 / cuspMaxRgb (okhsvA ⟨H, S, V, a⟩) (okhsvB ⟨H, S, V, a⟩))) := rfl
  have htm_pos : 0 < okhsvTmax ⟨H, S, V, a⟩ := by
    rw [htm_eq]
    exact div_pos (mul_pos hrpos hsc) (by linarith)
  have hk_lt : okhsvK ⟨H, S, V, a⟩ < 1 := by
    have h1 : 0 < s0 / okhsvSmax ⟨H, S, V, a⟩ := div_pos hs0 (by rw [hsmax]; exact hsc)
    rw [show okhsvK ⟨H, S, V, a⟩ = 1 - s0 / okhsvSmax ⟨H, S, V, a⟩ from rfl]
    linarith
  have h1ks : 0 < 1 - okhsvK ⟨H, S, V, a⟩ * S := by
    have h2 : 0 < S - okhsvK ⟨H, S, V, a⟩ * S := by
      have := mul_pos hS0 (sub_pos.2 hk_lt)
      linarith [mul_pos hS0 (sub_pos.2 hk_lt), (by ring :
        S * (1 - okhsvK ⟨H, S, V, a⟩) = S - okhsvK ⟨H, S, V, a⟩ * S)]
    linarith
  have hDrfl : okhsvDen ⟨H, S, V, a⟩ = s0 + okhsvTmax ⟨H, S, V, a⟩ -
      okhsvTmax ⟨H, S, V, a⟩ * okhsvK ⟨H, S, V, a⟩ * S := rfl
  have hden_gt : s0 < okhsvDen ⟨H, S, V, a⟩ := by
    rw [hDrfl]
    have h2 : 0 < okhsvTmax ⟨H, S, V, a⟩ - okhsvTmax ⟨H, S, V, a⟩ * okhsvK ⟨H, S, V, a⟩ * S := by
      linarith [mul_pos htm_pos h1ks, (by ring :
        okhsvTmax ⟨H, S, V, a⟩ * (1 - okhsvK ⟨H, S, V, a⟩ * S) =
        okhsvTmax ⟨H, S, V, a⟩ - okhsvTmax ⟨H, S, V, a⟩ * okhsvK ⟨H, S, V, a⟩ * S)]
    linarith
  have hden_pos : 0 < okhsvDen ⟨H, S, V, a⟩ := lt_trans hs0 hden_gt
  have hlv_eq : okhsvLv ⟨H, S, V, a⟩ = 1 - S * s0 / okhsvDen ⟨H, S, V, a⟩ := rfl
  have hlv_pos : 0 < okhsvLv ⟨H, S, V, a⟩ := by
    rw [hlv_eq]
    have h1 : S * s0 / okhsvDen ⟨H, S, V, a⟩ < 1 := by
      rw [div_lt_one hden_pos]
      have h2 : S * s0 ≤ 1 * s0 := mul_le_mul_of_nonneg_right hS1 hs0.le
      rw [one_mul] at h2
      linarith
    linarith
  have hcv_eq0 : okhsvCv ⟨H, S, V, a⟩ = S * okhsvTmax ⟨H, S, V, a⟩ * s0 /
      okhsvDen ⟨H, S, V, a⟩ := rfl
  have hcv_pos : 0 < okhsvCv ⟨H, S, V, a⟩ := by
    rw [hcv_eq0]
    exact div_pos (mul_pos (mul_pos hS0 htm_pos) hs0) hden_pos
  have hcv_tm : okhsvCv ⟨H, S, V, a⟩ =
      okhsvTmax ⟨H, S, V, a⟩ * (1 - okhsvLv ⟨H, S, V, a⟩) := by
    rw [hcv_eq0, hlv_eq]
    ring
  have hlmid_eq : okhsvLmid ⟨H, S, V, a⟩ = toe_inv (V * okhsvLv ⟨H, S, V, a⟩) := rfl
  have hVlv : 0 < V * okhsvLv ⟨H, S, V, a⟩ := mul_pos hV0 hlv_pos
  have hlmid_pos : 0 < okhsvLmid ⟨H, S, V, a⟩ := by
    rw [hlmid_eq]
    exact toe_inv_pos hVlv
  have hcmid_eq : okhsvCmid ⟨H, S, V, a⟩ =
      okhsvCv ⟨H, S, V, a⟩ * okhsvLmid ⟨H, S, V, a⟩ / okhsvLv ⟨H, S, V, a⟩ := by
    rw [show okhsvCmid ⟨H, S, V, a⟩ = V * okhsvCv ⟨H, S, V, a⟩ *
      okhsvLmid ⟨H, S, V, a⟩ / (V * okhsvLv ⟨H, S, V, a⟩) from rfl]
    field_simp
    ring
  have hcmid_pos : 0 < okhsvCmid ⟨H, S, V, a⟩ := by
    rw [hcmid_eq]
    exact div_pos (mul_pos hcv_pos hlmid_pos) hlv_pos
  have hscale_pos : 0 < okhsvScaleL ⟨H, S, V, a⟩ := cbrt_pos (one_div_pos.mpr hsm)
  have hCpos : 0 < okhsvCmid ⟨H, S, V, a⟩ * okhsvScaleL ⟨H, S, V, a⟩ :=
    mul_pos hcmid_pos hscale_pos
  have hABu : okhsvA ⟨H, S, V, a⟩ * okhsvA ⟨H, S, V, a⟩ +
      okhsvB ⟨H, S, V, a⟩ * okhsvB ⟨H, S, V, a⟩ = 1 := by
    rw [show okhsvA ⟨H, S, V, a⟩ = Real.cos (2 * π * okhsvH ⟨H, S, V, a⟩) from rfl,
      show okhsvB ⟨H, S, V, a⟩ = Real.sin (2 * π * okhsvH ⟨H, S, V, a⟩) from rfl]
    linear_combination Real.sin_sq_add_cos_sq (2 * π * okhsvH ⟨H, S, V, a⟩)
  have hfwd : okhsvaToOklaba ⟨H, S, V, a⟩ =
      ⟨okhsvLmid ⟨H, S, V, a⟩ * okhsvScaleL ⟨H, S, V, a⟩,
       okhsvCmid ⟨H, S, V, a⟩ * okhsvScaleL ⟨H, S, V, a⟩ * okhsvA ⟨H, S, V, a⟩,
       okhsvCmid ⟨H, S, V, a⟩ * okhsvScaleL ⟨H, S, V, a⟩ * okhsvB ⟨H, S, V, a⟩,
       a⟩ := by
    unfold okhsvaToOklaba
    rw [if_neg (show ¬((⟨H, S, V, a⟩ : Okhsva).value = 0) from hV0.ne')]
  rw [hfwd]
  have hlabC : labC ⟨okhsvLmid ⟨H, S, V, a⟩ * okhsvScaleL ⟨H, S, V, a⟩,
      okhsvCmid ⟨H, S, V, a⟩ * okhsvScaleL ⟨H, S, V, a⟩ * okhsvA ⟨H, S, V, a⟩,
      okhsvCmid ⟨H, S, V, a⟩ * okhsvScaleL ⟨H, S, V, a⟩ * okhsvB ⟨H, S, V, a⟩, a⟩ =
      okhsvCmid ⟨H, S, V, a⟩ * okhsvScaleL ⟨H, S, V, a⟩ :=
    labC_unit hABu hCpos.le
  have hlabAu : labAu ⟨okhsvLmid ⟨H, S, V, a⟩ * okhsvScaleL ⟨H, S, V, a⟩,
      okhsvCmid ⟨H, S, V, a⟩ * okhsvScaleL ⟨H, S, V, a⟩ * okhsvA ⟨H, S, V, a⟩,
      okhsvCmid ⟨H, S, V, a⟩ * okhsvScaleL ⟨H, S, V, a⟩ * okhsvB ⟨H, S, V, a⟩, a⟩ =
      okhsvA ⟨H, S, V, a⟩ :=
    labAu_unit hABu hCpos
  have hlabBu : labBu ⟨okhsvLmid ⟨H, S, V, a⟩ * okhsvScaleL ⟨H, S, V, a⟩,
      okhsvCmid ⟨H, S, V, a⟩ * okhsvScaleL ⟨H, S, V, a⟩ * okhsvA ⟨H, S, V, a⟩,
      okhsvCmid ⟨H, S, V, a⟩ * okhsvScaleL ⟨H, S, V, a⟩ * okhsvB ⟨H, S, V, a⟩, a⟩ =
      okhsvB ⟨H, S, V, a⟩ :=
    labBu_unit hABu hCpos
  have htm_lab : labTmax ⟨okhsvLmid ⟨H, S, V, a⟩ * okhsvScaleL ⟨H, S, V, a⟩,
      okhsvCmid ⟨H, S, V, a⟩ * okhsvScaleL ⟨H, S, V, a⟩ * okhsvA ⟨H, S, V, a⟩,
      okhsvCmid ⟨H, S, V, a⟩ * okhsvScaleL ⟨H, S, V, a⟩ * okhsvB ⟨H, S, V, a⟩, a⟩ =
      okhsvTmax ⟨H, S, V, a⟩ := by
    unfold labTmax
    rw [hlabAu, hlabBu]
    rfl
  have hk_lab : labK ⟨okhsvLmid ⟨H, S, V, a⟩ * okhsvScaleL ⟨H, S, V, a⟩,
      okhsvCmid ⟨H, S, V, a⟩ * okhsvScaleL ⟨H, S, V, a⟩ * okhsvA ⟨H, S, V, a⟩,
      okhsvCmid ⟨H, S, V, a⟩ * okhsvScaleL ⟨H, S, V, a⟩ * okhsvB ⟨H, S, V, a⟩, a⟩ =
      okhsvK ⟨H, S, V, a⟩ := by
    unfold labK labSmax
    rw [hlabAu, hlabBu]
    rfl
  have hden2 : okhsvCmid ⟨H, S, V, a⟩ * okhsvScaleL ⟨H, S, V, a⟩ +
      okhsvLmid ⟨H, S, V, a⟩ * okhsvScaleL ⟨H, S, V, a⟩ * okhsvTmax ⟨H, S, V, a⟩ =
      okhsvScaleL ⟨H, S, V, a⟩ * okhsvLmid ⟨H, S, V, a⟩ * okhsvTmax ⟨H, S, V, a⟩ /
        okhsvLv ⟨H, S, V, a⟩ := by
    rw [hcmid_eq, hcv_tm]
    field_simp
    ring
  have hlabT : labT ⟨okhsvLmid ⟨H, S, V, a⟩ * okhsvScaleL ⟨H, S, V, a⟩,
      okhsvCmid ⟨H, S, V, a⟩ * okhsvScaleL ⟨H, S, V, a⟩ * okhsvA ⟨H, S, V, a⟩,
      okhsvCmid ⟨H, S, V, a⟩ * okhsvScaleL ⟨H, S, V, a⟩ * okhsvB ⟨H, S, V, a⟩, a⟩ =
      okhsvLv ⟨H, S, V, a⟩ / (okhsvScaleL ⟨H, S, V, a⟩ * okhsvLmid ⟨H, S, V, a⟩) := by
    unfold labT
    rw [htm_lab, hlabC]
    rw [show (⟨okhsvLmid ⟨H, S, V, a⟩ * okhsvScaleL ⟨H, S, V, a⟩,
      okhsvCmid ⟨H, S, V, a⟩ * okhsvScaleL ⟨H, S, V, a⟩ * okhsvA ⟨H, S, V, a⟩,
      okhsvCmid ⟨H, S, V, a⟩ * okhsvScaleL ⟨H, S, V, a⟩ * okhsvB ⟨H, S, V, a⟩, a⟩ :
        Oklaba).lightness = okhsvLmid ⟨H, S, V, a⟩ * okhsvScaleL ⟨H, S, V, a⟩ from rfl]
    rw [hden2]
    rw [div_div_eq_mul_div,
      mul_comm (okhsvScaleL ⟨H, S, V, a⟩ * okhsvLmid ⟨H, S, V, a⟩)
        (okhsvTmax ⟨H, S, V, a⟩),
      mul_div_mul_left _ _ htm_pos.ne']
  have hlabLv : labLv ⟨okhsvLmid ⟨H, S, V, a⟩ * okhsvScaleL ⟨H, S, V, a⟩,
      okhsvCmid ⟨H, S, V, a⟩ * okhsvScaleL ⟨H, S, V, a⟩ * okhsvA ⟨H, S, V, a⟩,
      okhsvCmid ⟨H, S, V, a⟩ * okhsvScaleL ⟨H, S, V, a⟩ * okhsvB ⟨H, S, V, a⟩, a⟩ =
      okhsvLv ⟨H, S, V, a⟩ := by
    unfold labLv
    rw [hlabT]
    rw [show (⟨okhsvLmid ⟨H, S, V, a⟩ * okhsvScaleL ⟨H, S, V, a⟩,
      okhsvCmid ⟨H, S, V, a⟩ * okhsvScaleL ⟨H, S, V, a⟩ * okhsvA ⟨H, S, V, a⟩,
      okhsvCmid ⟨H, S, V, a⟩ * okhsvScaleL ⟨H, S, V, a⟩ * okhsvB ⟨H, S, V, a⟩, a⟩ :
        Oklaba).lightness = okhsvLmid ⟨H, S, V, a⟩ * okhsvScaleL ⟨H, S, V, a⟩ from rfl]
    rw [div_mul_eq_mul_div, mul_comm (okhsvLmid ⟨H, S, V, a⟩) (okhsvScaleL ⟨H, S, V, a⟩),
      mul_div_cancel_right₀ _ (mul_pos hscale_pos hlmid_pos).ne']
  have hlabCv : labCv ⟨okhsvLmid ⟨H, S, V, a⟩ * okhsvScaleL ⟨H, S, V, a⟩,
      okhsvCmid ⟨H, S, V, a⟩ * okhsvScaleL ⟨H, S, V, a⟩ * okhsvA ⟨H, S, V, a⟩,
      okhsvCmid ⟨H, S, V, a⟩ * okhsvScaleL ⟨H, S, V, a⟩ * okhsvB ⟨H, S, V, a⟩, a⟩ =
      okhsvCv ⟨H, S, V, a⟩ := by
    unfold labCv
    rw [hlabT, hlabC, hcmid_eq]
    field_simp
    ring
  have hlabLvt : labLvt ⟨okhsvLmid ⟨H, S, V, a⟩ * okhsvScaleL ⟨H, S, V, a⟩,
      okhsvCmid ⟨H, S, V, a⟩ * okhsvScaleL ⟨H, S, V, a⟩ * okhsvA ⟨H, S, V, a⟩,
      okhsvCmid ⟨H, S, V, a⟩ * okhsvScaleL ⟨H, S, V, a⟩ * okhsvB ⟨H, S, V, a⟩, a⟩ =
      okhsvLvt ⟨H, S, V, a⟩ := by
    unfold labLvt
    rw [hlabLv]
    rfl
  have hlabCvt : labCvt ⟨okhsvLmid ⟨H, S, V, a⟩ * okhsvScaleL ⟨H, S, V, a⟩,
      okhsvCmid ⟨H, S, V, a⟩ * okhsvScaleL ⟨H, S, V, a⟩ * okhsvA ⟨H, S, V, a⟩,
      okhsvCmid ⟨H, S, V, a⟩ * okhsvScaleL ⟨H, S, V, a⟩ * okhsvB ⟨H, S, V, a⟩, a⟩ =
      okhsvCvt ⟨H, S, V, a⟩ := by
    unfold labCvt
    rw [hlabCv, hlabLvt, hlabLv]
    rfl
  have hlabSRgb : labScaleRgb ⟨okhsvLmid ⟨H, S, V, a⟩ * okhsvScaleL ⟨H, S, V, a⟩,
      okhsvCmid ⟨H, S, V, a⟩ * okhsvScaleL ⟨H, S, V, a⟩ * okhsvA ⟨H, S, V, a⟩,
      okhsvCmid ⟨H, S, V, a⟩ * okhsvScaleL ⟨H, S, V, a⟩ * okhsvB ⟨H, S, V, a⟩, a⟩ =
      okhsvScaleRgb ⟨H, S, V, a⟩ := by
    unfold labScaleRgb
    rw [hlabLvt, hlabAu, hlabBu, hlabCvt]
    rfl
  have hlabSL : labScaleL ⟨okhsvLmid ⟨H, S, V, a⟩ * okhsvScaleL ⟨H, S, V, a⟩,
      okhsvCmid ⟨H, S, V, a⟩ * okhsvScaleL ⟨H, S, V, a⟩ * okhsvA ⟨H, S, V, a⟩,
      okhsvCmid ⟨H, S, V, a⟩ * okhsvScaleL ⟨H, S, V, a⟩ * okhsvB ⟨H, S, V, a⟩, a⟩ =
      okhsvScaleL ⟨H, S, V, a⟩ := by
    unfold labScaleL
    rw [hlabSRgb]
    rfl
  have hrev : oklabaToOkhsva ⟨okhsvLmid ⟨H, S, V, a⟩ * okhsvScaleL ⟨H, S, V, a⟩,
      okhsvCmid ⟨H, S, V, a⟩ * okhsvScaleL ⟨H, S, V, a⟩ * okhsvA ⟨H, S, V, a⟩,
      okhsvCmid ⟨H, S, V, a⟩ * okhsvScaleL ⟨H, S, V, a⟩ * okhsvB ⟨H, S, V, a⟩, a⟩ =
      ⟨labHue ⟨okhsvLmid ⟨H, S, V, a⟩ * okhsvScaleL ⟨H, S, V, a⟩,
          okhsvCmid ⟨H, S, V, a⟩ * okhsvScaleL ⟨H, S, V, a⟩ * okhsvA ⟨H, S, V, a⟩,
          okhsvCmid ⟨H, S, V, a⟩ * okhsvScaleL ⟨H, S, V, a⟩ * okhsvB ⟨H, S, V, a⟩, a⟩ * 360,
        (s0 + labTmax ⟨okhsvLmid ⟨H, S, V, a⟩ * okhsvScaleL ⟨H, S, V, a⟩,
          okhsvCmid ⟨H, S, V, a⟩ * okhsvScaleL ⟨H, S, V, a⟩ * okhsvA ⟨H, S, V, a⟩,
          okhsvCmid ⟨H, S, V, a⟩ * okhsvScaleL ⟨H, S, V, a⟩ * okhsvB ⟨H, S, V, a⟩, a⟩) *
          labCv ⟨okhsvLmid ⟨H, S, V, a⟩ * okhsvScaleL ⟨H, S, V, a⟩,
          okhsvCmid ⟨H, S, V, a⟩ * okhsvScaleL ⟨H, S, V, a⟩ * okhsvA ⟨H, S, V, a⟩,
          okhsvCmid ⟨H, S, V, a⟩ * okhsvScaleL ⟨H, S, V, a⟩ * okhsvB ⟨H, S, V, a⟩, a⟩ /
          (labTmax ⟨okhsvLmid ⟨H, S, V, a⟩ * okhsvScaleL ⟨H, S, V, a⟩,
            okhsvCmid ⟨H, S, V, a⟩ * okhsvScaleL ⟨H, S, V, a⟩ * okhsvA ⟨H, S, V, a⟩,
            okhsvCmid ⟨H, S, V, a⟩ * okhsvScaleL ⟨H, S, V, a⟩ * okhsvB ⟨H, S, V, a⟩, a⟩ * s0 +
           labTmax ⟨okhsvLmid ⟨H, S, V, a⟩ * okhsvScaleL ⟨H, S, V, a⟩,
            okhsvCmid ⟨H, S, V, a⟩ * okhsvScaleL ⟨H, S, V, a⟩ * okhsvA ⟨H, S, V, a⟩,
            okhsvCmid ⟨H, S, V, a⟩ * okhsvScaleL ⟨H, S, V, a⟩ * okhsvB ⟨H, S, V, a⟩, a⟩ *
            labK ⟨okhsvLmid ⟨H, S, V, a⟩ * okhsvScaleL ⟨H, S, V, a⟩,
            okhsvCmid ⟨H, S, V, a⟩ * okhsvScaleL ⟨H, S, V, a⟩ * okhsvA ⟨H, S, V, a⟩,
            okhsvCmid ⟨H, S, V, a⟩ * okhsvScaleL ⟨H, S, V, a⟩ * okhsvB ⟨H, S, V, a⟩, a⟩ *
            labCv ⟨okhsvLmid ⟨H, S, V, a⟩ * okhsvScaleL ⟨H, S, V, a⟩,
            okhsvCmid ⟨H, S, V, a⟩ * okhsvScaleL ⟨H, S, V, a⟩ * okhsvA ⟨H, S, V, a⟩,
            okhsvCmid ⟨H, S, V, a⟩ * okhsvScaleL ⟨H, S, V, a⟩ * okhsvB ⟨H, S, V, a⟩, a⟩),
        toe ((okhsvLmid ⟨H, S, V, a⟩ * okhsvScaleL ⟨H, S, V, a⟩) /
            labScaleL ⟨okhsvLmid ⟨H, S, V, a⟩ * okhsvScaleL ⟨H, S, V, a⟩,
            okhsvCmid ⟨H, S, V, a⟩ * okhsvScaleL ⟨H, S, V, a⟩ * okhsvA ⟨H, S, V, a⟩,
            okhsvCmid ⟨H, S, V, a⟩ * okhsvScaleL ⟨H, S, V, a⟩ * okhsvB ⟨H, S, V, a⟩, a⟩) /
          labLv ⟨okhsvLmid ⟨H, S, V, a⟩ * okhsvScaleL ⟨H, S, V, a⟩,
            okhsvCmid ⟨H, S, V, a⟩ * okhsvScaleL ⟨H, S, V, a⟩ * okhsvA ⟨H, S, V, a⟩,
            okhsvCmid ⟨H, S, V, a⟩ * okhsvScaleL ⟨H, S, V, a⟩ * okhsvB ⟨H, S, V, a⟩, a⟩,
        a⟩ := by
    unfold oklabaToOkhsva
    rw [if_neg (by rw [hlabC]; exact hCpos.ne')]
  rw [hrev]
  have h_v : toe ((okhsvLmid ⟨H, S, V, a⟩ * okhsvScaleL ⟨H, S, V, a⟩) /
      labScaleL ⟨okhsvLmid ⟨H, S, V, a⟩ * okhsvScaleL ⟨H, S, V, a⟩,
        okhsvCmid ⟨H, S, V, a⟩ * okhsvScaleL ⟨H, S, V, a⟩ * okhsvA ⟨H, S, V, a⟩,
        okhsvCmid ⟨H, S, V, a⟩ * okhsvScaleL ⟨H, S, V, a⟩ * okhsvB ⟨H, S, V, a⟩, a⟩) /
      labLv ⟨okhsvLmid ⟨H, S, V, a⟩ * okhsvScaleL ⟨H, S, V, a⟩,
        okhsvCmid ⟨H, S, V, a⟩ * okhsvScaleL ⟨H, S, V, a⟩ * okhsvA ⟨H, S, V, a⟩,
        okhsvCmid ⟨H, S, V, a⟩ * okhsvScaleL ⟨H, S, V, a⟩ * okhsvB ⟨H, S, V, a⟩, a⟩ = V := by
    rw [hlabSL, hlabLv,
      mul_div_cancel_right₀ (okhsvLmid ⟨H, S, V, a⟩) hscale_pos.ne', hlmid_eq]
    have htk2 : (0:ℝ) < tK2 := by norm_num [tK2]
    rw [toe_toe_inv (by linarith : -tK2 < V * okhsvLv ⟨H, S, V, a⟩)]
    exact mul_div_cancel_right₀ V hlv_pos.ne'
  have h_s : (s0 + labTmax ⟨okhsvLmid ⟨H, S, V, a⟩ * okhsvScaleL ⟨H, S, V, a⟩,
      okhsvCmid ⟨H, S, V, a⟩ * okhsvScaleL ⟨H, S, V, a⟩ * okhsvA ⟨H, S, V, a⟩,
      okhsvCmid ⟨H, S, V, a⟩ * okhsvScaleL ⟨H, S, V, a⟩ * okhsvB ⟨H, S, V, a⟩, a⟩) *
      labCv ⟨okhsvLmid ⟨H, S, V, a⟩ * okhsvScaleL ⟨H, S, V, a⟩,
      okhsvCmid ⟨H, S, V, a⟩ * okhsvScaleL ⟨H, S, V, a⟩ * okhsvA ⟨H, S, V, a⟩,
      okhsvCmid ⟨H, S, V, a⟩ * okhsvScaleL ⟨H, S, V, a⟩ * okhsvB ⟨H, S, V, a⟩, a⟩ /
      (labTmax ⟨okhsvLmid ⟨H, S, V, a⟩ * okhsvScaleL ⟨H, S, V, a⟩,
        okhsvCmid ⟨H, S, V, a⟩ * okhsvScaleL ⟨H, S, V, a⟩ * okhsvA ⟨H, S, V, a⟩,
        okhsvCmid ⟨H, S, V, a⟩ * okhsvScaleL ⟨H, S, V, a⟩ * okhsvB ⟨H, S, V, a⟩, a⟩ * s0 +
       labTmax ⟨okhsvLmid ⟨H, S, V, a⟩ * okhsvScaleL ⟨H, S, V, a⟩,
        okhsvCmid ⟨H, S, V, a⟩ * okhsvScaleL ⟨H, S, V, a⟩ * okhsvA ⟨H, S, V, a⟩,
        okhsvCmid ⟨H, S, V, a⟩ * okhsvScaleL ⟨H, S, V, a⟩ * okhsvB ⟨H, S, V, a⟩, a⟩ *
        labK ⟨okhsvLmid ⟨H, S, V, a⟩ * okhsvScaleL ⟨H, S, V, a⟩,
        okhsvCmid ⟨H, S, V, a⟩ * okhsvScaleL ⟨H, S, V, a⟩ * okhsvA ⟨H, S, V, a⟩,
        okhsvCmid ⟨H, S, V, a⟩ * okhsvScaleL ⟨H, S, V, a⟩ * okhsvB ⟨H, S, V, a⟩, a⟩ *
        labCv ⟨okhsvLmid ⟨H, S, V, a⟩ * okhsvScaleL ⟨H, S, V, a⟩,
        okhsvCmid ⟨H, S, V, a⟩ * okhsvScaleL ⟨H, S, V, a⟩ * okhsvA ⟨H, S, V, a⟩,
        okhsvCmid ⟨H, S, V, a⟩ * okhsvScaleL ⟨H, S, V, a⟩ * okhsvB ⟨H, S, V, a⟩, a⟩) = S := by
    have hEpos : 0 < s0 + okhsvTmax ⟨H, S, V, a⟩ -
        okhsvTmax ⟨H, S, V, a⟩ * okhsvK ⟨H, S, V, a⟩ * S := hDrfl ▸ hden_pos
    rw [htm_lab, hlabCv, hk_lab, hcv_eq0, hDrfl]
    field_simp
    ring_nf
    have hX : (0:ℝ) < s0 * okhsvTmax ⟨H, S, V, a⟩ ^ 2 + s0 ^ 2 * okhsvTmax ⟨H, S, V, a⟩ :=
      add_pos (mul_pos hs0 (pow_pos htm_pos 2)) (mul_pos (pow_pos hs0 2) htm_pos)
    rw [← add_mul, mul_inv_eq_iff_eq_mul₀ hX.ne']
    ring
  have hA_eq : okhsvA ⟨H, S, V, a⟩ = Real.cos (2 * π * (H / 360)) := rfl
  have hB_eq : okhsvB ⟨H, S, V, a⟩ = Real.sin (2 * π * (H / 360)) := rfl
  have hθpos : 0 < 2 * π * (H / 360) :=
    mul_pos (mul_pos two_pos Real.pi_pos) (div_pos hH0 (by norm_num))
  have hθlt : 2 * π * (H / 360) < 2 * π := by
    have h1 : H / 360 < 1 := (div_lt_one (by norm_num)).mpr hH1
    calc 2 * π * (H / 360) < 2 * π * 1 :=
        mul_lt_mul_of_pos_left h1 (mul_pos two_pos Real.pi_pos)
      _ = 2 * π := mul_one _
  have hmem : 2 * π * (H / 360) - π ∈ Set.Ioc (-π) π :=
    ⟨by linarith [Real.pi_pos, hθpos], by linarith [hθlt]⟩
  have hcsub : Real.cos (2 * π * (H / 360) - π) = -Real.cos (2 * π * (H / 360)) := by
    rw [Real.cos_sub]
    simp
  have hssub : Real.sin (2 * π * (H / 360) - π) = -Real.sin (2 * π * (H / 360)) := by
    rw [Real.sin_sub]
    simp
  have hzeq : (⟨-(okhsvCmid ⟨H, S, V, a⟩ * okhsvScaleL ⟨H, S, V, a⟩ * okhsvA ⟨H, S, V, a⟩),
      -(okhsvCmid ⟨H, S, V, a⟩ * okhsvScaleL ⟨H, S, V, a⟩ * okhsvB ⟨H, S, V, a⟩)⟩ : ℂ) =
      ((okhsvCmid ⟨H, S, V, a⟩ * okhsvScaleL ⟨H, S, V, a⟩ : ℝ) : ℂ) *
        (Complex.cos ((2 * π * (H / 360) - π : ℝ) : ℂ) +
         Complex.sin ((2 * π * (H / 360) - π : ℝ) : ℂ) * Complex.I) := by
    rw [← Complex.ofReal_cos, ← Complex.ofReal_sin, hcsub, hssub, hA_eq, hB_eq,
      Complex.mk_eq_add_mul_I]
    push_cast
    ring
  have harg : Complex.arg ⟨-(okhsvCmid ⟨H, S, V, a⟩ * okhsvScaleL ⟨H, S, V, a⟩ * okhsvA ⟨H, S, V, a⟩),
      -(okhsvCmid ⟨H, S, V, a⟩ * okhsvScaleL ⟨H, S, V, a⟩ * okhsvB ⟨H, S, V, a⟩)⟩ = 2 * π * (H / 360) - π := by
    rw [hzeq]
    exact Complex.arg_mul_cos_add_sin_mul_I hCpos hmem
  have h_hue : labHue ⟨okhsvLmid ⟨H, S, V, a⟩ * okhsvScaleL ⟨H, S, V, a⟩,
      okhsvCmid ⟨H, S, V, a⟩ * okhsvScaleL ⟨H, S, V, a⟩ * okhsvA ⟨H, S, V, a⟩,
      okhsvCmid ⟨H, S, V, a⟩ * okhsvScaleL ⟨H, S, V, a⟩ * okhsvB ⟨H, S, V, a⟩, a⟩ * 360 = H := by
    show (0.5 + 0.5 * Complex.arg ⟨-(okhsvCmid ⟨H, S, V, a⟩ * okhsvScaleL ⟨H, S, V, a⟩ * okhsvA ⟨H, S, V, a⟩),
      -(okhsvCmid ⟨H, S, V, a⟩ * okhsvScaleL ⟨H, S, V, a⟩ * okhsvB ⟨H, S, V, a⟩)⟩ / π) * 360 = H
    rw [harg]
    field_simp
    ring
  rw [h_hue, h_s, h_v]

lemma oklchHue_arg_eq {o o' : Oklaba}
    (h : Complex.arg ⟨o.a, o.b⟩ = Complex.arg ⟨o'.a, o'.b⟩) :
    oklchHue o = oklchHue o' := by
  unfold oklchHue atan2
  rw [h]

/-- C7 (amended): for every out-of-gamut input with a positive intersection
parameter `t`, the clip math preserves hue exactly in Oklab space: the clipped
Oklab color that the function converts back to RGB has exactly the Oklch hue
of the input's Oklab form.  (The hue of the final RGB output can still move,
because the published conversion matrices are not exact inverses and the
defensive per-channel clamp can displace the color; see the counterexample.) -/
theorem claim7_amended (rgba : LinearRgba)
    (hout : ¬(rgba.red ≤ 1 ∧ rgba.green ≤ 1 ∧ rgba.blue ≤ 1 ∧
      0 ≤ rgba.red ∧ 0 ≤ rgba.green ∧ 0 ≤ rgba.blue))
    (ht : 0 < clipT rgba) :
    oklchHue (gamutClipTarget rgba) = oklchHue (linearRgbaToOklaba rgba) := by
  have hcc : clipC rgba ≠ 0 :=
    ne_of_gt (lt_of_lt_of_le (by norm_num) (le_max_left _ _))
  have ha : (gamutClipTarget rgba).a =
      clipT rgba * (linearRgbaToOklaba rgba).a := by
    show clipT rgba * clipC rgba * clipA rgba = _
    unfold clipA
    field_simp
    ring
  have hb : (gamutClipTarget rgba).b =
      clipT rgba * (linearRgbaToOklaba rgba).b := by
    show clipT rgba * clipC rgba * clipB rgba = _
    unfold clipB
    field_simp
    ring
  apply oklchHue_arg_eq
  rw [ha, hb]
  have hz : (⟨clipT rgba * (linearRgbaToOklaba rgba).a,
      clipT rgba * (linearRgbaToOklaba rgba).b⟩ : ℂ) =
      (clipT rgba : ℂ) *
        ⟨(linearRgbaToOklaba rgba).a, (linearRgbaToOklaba rgba).b⟩ := by
    apply Complex.ext <;>
      simp [Complex.mul_re, Complex.mul_im]
  rw [hz, Complex.arg_real_mul _ ht]

/-- The out-of-gamut witness input for C7's amended theorem: the exact rational
linear RGB color whose Oklab form is `(Lw, 3q, 4q)` with a Pythagorean chroma
direction, built from the cube triple ((3/5)³, (47/100)³,
(161482069047/704733689600)³). -/
def c7wx : LinearRgba :=
  ⟨1154758811844835413495827312036782690265285395129254380625 /
     2138686083717834276043612097381458729319877205887677382656,
   -(7630984813782476614317686221179416745138238555265174375 /
     1069343041858917138021806048690729364659938602943838691328),
   -(57095708960462440133515317053124462366960624189667888125 /
     1069343041858917138021806048690729364659938602943838691328),
   1⟩

lemma c7wx_oklab : linearRgbaToOklaba c7wx =
    ⟨877992197350478198621/1761834224000000000000,
     1047300608324367030813/7047336896000000000000,
     349100202774789010271/1761834224000000000000, 1⟩ := by
  have h1 : (0.4122214708 * c7wx.red + 0.5363325363 * c7wx.green +
      0.0514459929 * c7wx.blue : ℝ) = (3/5) ^ 3 := by
    unfold c7wx
    norm_num
  have h2 : (0.2119034982 * c7wx.red + 0.6806995451 * c7wx.green +
      0.1073969566 * c7wx.blue : ℝ) = (47/100) ^ 3 := by
    unfold c7wx
    norm_num
  have h3 : (0.0883024619 * c7wx.red + 0.2817188376 * c7wx.green +
      0.6299787005 * c7wx.blue : ℝ) = (161482069047/704733689600) ^ 3 := by
    unfold c7wx
    norm_num
  simp only [linearRgbaToOklaba, h1, h2, h3,
    cbrt_cube (show (0:ℝ) ≤ 3/5 by norm_num),
    cbrt_cube (show (0:ℝ) ≤ 47/100 by norm_num),
    cbrt_cube (show (0:ℝ) ≤ 161482069047/704733689600 by norm_num)]
  have ha : c7wx.alpha = 1 := rfl
  rw [ha]
  norm_num

lemma c7wx_clipC : clipC c7wx = 349100202774789010271/1409467379200000000000 := by
  unfold clipC
  rw [c7wx_oklab]
  have hsq : ((1047300608324367030813/7047336896000000000000 : ℝ) *
      (1047300608324367030813/7047336896000000000000) +
      (349100202774789010271/1761834224000000000000 : ℝ) *
      (349100202774789010271/1761834224000000000000)) =
      (349100202774789010271/1409467379200000000000 : ℝ) ^ 2 := by
    norm_num
  rw [hsq, Real.sqrt_sq (by norm_num)]
  exact max_eq_right (by norm_num)

lemma c7wx_clipA : clipA c7wx = 3/5 := by
  unfold clipA
  rw [c7wx_oklab, c7wx_clipC]
  norm_num

lemma c7wx_clipB : clipB c7wx = 4/5 := by
  unfold clipB
  rw [c7wx_oklab, c7wx_clipC]
  norm_num

lemma c7wx_clipL : clipL c7wx = 877992197350478198621/1761834224000000000000 := by
  unfold clipL
  rw [c7wx_oklab]

lemma c7wx_clipL0 : clipL0 c7wx = 877992197350478198621/1761834224000000000000 := by
  unfold clipL0
  rw [c7wx_clipL, max_eq_left (by norm_num), min_eq_left (by norm_num)]

set_option maxHeartbeats 2000000 in
lemma cms_hue3545_pos : 0 < compute_max_saturation (3/5 : ℝ) (4/5) := by
  norm_num [compute_max_saturation, computeMaxSaturationWith]

set_option maxHeartbeats 2000000 in
lemma cuspMaxRgb_hue3545_pos : 0 < cuspMaxRgb (3/5 : ℝ) (4/5) := by
  norm_num [cuspMaxRgb, compute_max_saturation, computeMaxSaturationWith,
    oklabaToLinearRgba, lt_max_iff]

set_option maxHeartbeats 4000000 in
lemma cuspMaxRgb_hue3545_lt_three : cuspMaxRgb (3/5 : ℝ) (4/5) < 3 := by
  unfold cuspMaxRgb
  apply max_lt (max_lt _ _) _ <;>
    norm_num [compute_max_saturation, computeMaxSaturationWith,
      oklabaToLinearRgba]

set_option maxHeartbeats 2000000 in
lemma c7wx_clipT_pos : 0 < clipT c7wx := by
  have hsc := cms_hue3545_pos
  have hMpos := cuspMaxRgb_hue3545_pos
  have hMlt := cuspMaxRgb_hue3545_lt_three
  have hr : 0 < cbrt (1 / cuspMaxRgb (3/5 : ℝ) (4/5)) :=
    cbrt_pos (one_div_pos.mpr hMpos)
  have hLr : (877992197350478198621/1761834224000000000000 : ℝ) ≤
      cbrt (1 / cuspMaxRgb (3/5 : ℝ) (4/5)) := by
    apply le_cbrt (by norm_num)
    rw [le_div_iff hMpos]
    nlinarith
  simp only [clipT, find_gamut_intersection, find_cusp_fst, find_cusp_snd,
    c7wx_clipA, c7wx_clipB, c7wx_clipL, c7wx_clipL0, c7wx_clipC]
  rw [if_pos (by nlinarith)]
  rw [sub_self, mul_zero, add_zero]
  apply div_pos
  · positivity
  · positivity

/-- Witness for C7's amended theorem at the out-of-gamut color `c7wx` (its
green channel is negative): hue is preserved by the Oklab-space clip there. -/
theorem claim7_witness :
    oklchHue (gamutClipTarget c7wx) = oklchHue (linearRgbaToOklaba c7wx) := by
  apply claim7_amended c7wx
  · intro h
    exact absurd h.2.2.2.2.1 (by unfold c7wx; norm_num)
  · exact c7wx_clipT_pos

/-- The counterexample input for C7 as stated: a barely out-of-gamut
near-black color (the preimage of the cube triple ((-1/10)³, (-1/10)³,
(-1000015/10000000)³)) whose Oklab lightness is negative and whose chroma is
tiny but nonzero. -/
def c7x : LinearRgba :=
  ⟨-(78214347578178447554664317000825933 /
      78213534668001552770814178008800000000),
   -(1564246667191080149774195789876157 /
      1564270693360031055416283560176000000),
   -(39109772444412424409840429385405367 /
      39106767334000776385407089004400000000),
   1⟩

lemma c7x_oklab : linearRgbaToOklaba c7x =
    ⟨-(499999966209649/5000000000000000),
     -(13517811297/20000000000000000),
     1209283649/1000000000000000, 1⟩ := by
  have h1 : (0.4122214708 * c7x.red + 0.5363325363 * c7x.green +
      0.0514459929 * c7x.blue : ℝ) = -((1/10) ^ 3) := by
    unfold c7x
    norm_num
  have h2 : (0.2119034982 * c7x.red + 0.6806995451 * c7x.green +
      0.1073969566 * c7x.blue : ℝ) = -((1/10) ^ 3) := by
    unfold c7x
    norm_num
  have h3 : (0.0883024619 * c7x.red + 0.2817188376 * c7x.green +
      0.6299787005 * c7x.blue : ℝ) = -((1000015/10000000) ^ 3) := by
    unfold c7x
    norm_num
  simp only [linearRgbaToOklaba, h1, h2, h3,
    cbrt_neg_cube (show (0:ℝ) ≤ 1/10 by norm_num),
    cbrt_neg_cube (show (0:ℝ) ≤ 1000015/10000000 by norm_num)]
  have ha : c7x.alpha = 1 := rfl
  rw [ha]
  norm_num

lemma c7x_clipC : clipC c7x = 1/100000 := by
  unfold clipC
  rw [c7x_oklab]
  have hs : Real.sqrt ((-(13517811297/20000000000000000) : ℝ) *
      (-(13517811297/20000000000000000)) +
      (1209283649/1000000000000000 : ℝ) * (1209283649/1000000000000000)) ≤
      0.00001 := by
    have hle : ((-(13517811297/20000000000000000) : ℝ) *
        (-(13517811297/20000000000000000)) +
        (1209283649/1000000000000000 : ℝ) * (1209283649/1000000000000000)) ≤
        (0.00001 : ℝ) ^ 2 := by norm_num
    calc Real.sqrt _ ≤ Real.sqrt ((0.00001 : ℝ) ^ 2) := Real.sqrt_le_sqrt hle
      _ = 0.00001 := Real.sqrt_sq (by norm_num)
  calc max 0.00001 (Real.sqrt _) = (0.00001 : ℝ) := max_eq_left hs
    _ = 1/100000 := by norm_num

lemma c7x_clipA : clipA c7x = -(13517811297/200000000000) := by
  unfold clipA
  rw [c7x_oklab, c7x_clipC]
  norm_num

lemma c7x_clipB : clipB c7x = 1209283649/10000000000 := by
  unfold clipB
  rw [c7x_oklab, c7x_clipC]
  norm_num

lemma c7x_clip_black : gamut_clip_preserve_chroma c7x = ⟨0, 0, 0, 1⟩ := by
  have hL : clipL c7x ≤ 0 := by
    unfold clipL
    rw [c7x_oklab]
    norm_num
  have hL0 : clipL0 c7x = 0 := by
    unfold clipL0
    rw [max_eq_right hL]
    exact min_eq_left (by norm_num)
  have hsc : 0 < compute_max_saturation (clipA c7x) (clipB c7x) := by
    rw [c7x_clipA, c7x_clipB]
    norm_num [compute_max_saturation, computeMaxSaturationWith]
  have hM : 0 < cuspMaxRgb (clipA c7x) (clipB c7x) := by
    rw [c7x_clipA, c7x_clipB]
    norm_num [cuspMaxRgb, compute_max_saturation, computeMaxSaturationWith,
      oklabaToLinearRgba, lt_max_iff]
  have hT := clipT_eq_zero_of_nonpos_lightness c7x hL hsc hM
  have hout : ¬(c7x.red ≤ 1 ∧ c7x.green ≤ 1 ∧ c7x.blue ≤ 1 ∧
      0 ≤ c7x.red ∧ 0 ≤ c7x.green ∧ 0 ≤ c7x.blue) := by
    intro h
    exact absurd h.2.2.2.1 (by unfold c7x; norm_num)
  rw [gamut_clip_eq_black c7x hout hT hL0]
  have ha : c7x.alpha = 1 := rfl
  rw [ha]
  norm_num

/-- Counterexample for C7 as stated: at `c7x` the input's Oklch hue is nonzero
(its Oklab b component is positive), but the clipped output is exactly black,
whose Oklch hue is 0 — so the Oklch hue of the RGB output of
`gamut_clip_preserve_chroma` is not equal to the Oklch hue of the input. -/
theorem claim7_counterexample :
    oklchHueOfRgba (gamut_clip_preserve_chroma c7x) ≠ oklchHueOfRgba c7x := by
  have hblack : linearRgbaToOklaba ⟨0, 0, 0, 1⟩ = ⟨0, 0, 0, 1⟩ := by
    simp only [linearRgbaToOklaba]
    norm_num [cbrt_zero]
  have hout : oklchHueOfRgba (gamut_clip_preserve_chroma c7x) = 0 := by
    unfold oklchHueOfRgba
    rw [c7x_clip_black, hblack]
    unfold oklchHue atan2
    have hz : (⟨(0:ℝ), (0:ℝ)⟩ : ℂ) = 0 := by
      apply Complex.ext <;> simp
    rw [hz, Complex.arg_zero]
    norm_num
  rw [hout]
  unfold oklchHueOfRgba
  rw [c7x_oklab]
  unfold oklchHue atan2
  have him : (⟨(-(13517811297/20000000000000000) : ℝ),
      (1209283649/1000000000000000 : ℝ)⟩ : ℂ).im = 1209283649/1000000000000000 := rfl
  have hargne : Complex.arg ⟨(-(13517811297/20000000000000000) : ℝ),
      (1209283649/1000000000000000 : ℝ)⟩ ≠ 0 := by
    intro h
    have := (Complex.arg_eq_zero_iff.1 h).2
    rw [him] at this
    norm_num at this
  have hargpos : 0 ≤ Complex.arg ⟨(-(13517811297/20000000000000000) : ℝ),
      (1209283649/1000000000000000 : ℝ)⟩ := by
    rw [Complex.arg_nonneg_iff, him]
    norm_num
  have hpi : (0:ℝ) < 180 / π := by positivity
  rw [if_neg (not_lt.2 (mul_nonneg hargpos hpi.le))]
  intro h
  exact hargne (by
    have := mul_eq_zero.1 h.symm
    rcases this with h1 | h1
    · exact h1
    · exact absurd h1 (ne_of_gt hpi))

/-- At hue 90° the angle `2π·h` is exactly `π/2`. -/
lemma hue90_angle : 2 * π * okhsvH ⟨90, 1, 1, 1/2⟩ = π / 2 := by
  show 2 * π * ((90:ℝ) / 360) = π / 2
  ring

lemma okhsvA_90 : okhsvA ⟨90, 1, 1, 1/2⟩ = 0 := by
  unfold okhsvA
  rw [hue90_angle, Real.cos_pi_div_two]

lemma okhsvB_90 : okhsvB ⟨90, 1, 1, 1/2⟩ = 1 := by
  unfold okhsvB
  rw [hue90_angle, Real.sin_pi_div_two]

lemma w6_SC_pos : (0:ℝ) < compute_max_saturation 0 1 := by
  linarith [cms_hue90_bounds.1]

lemma w6_M_gt1 : (1:ℝ) < cuspMaxRgb 0 1 :=
  lt_trans (by norm_num) cuspMaxRgb_hue90_lo

lemma w6_r_pos : (0:ℝ) < cbrt (1 / cuspMaxRgb 0 1) :=
  cbrt_pos (one_div_pos.mpr cuspMaxRgb_hue90_pos)

lemma w6_r_lo : (0.86362:ℝ) < cbrt (1 / cuspMaxRgb 0 1) := by
  apply lt_cbrt (by norm_num)
  rw [lt_div_iff cuspMaxRgb_hue90_pos]
  linarith [cuspMaxRgb_hue90_hi]

lemma w6_r_hi : cbrt (1 / cuspMaxRgb 0 1) < 0.86364 := by
  apply cbrt_lt (one_div_pos.mpr cuspMaxRgb_hue90_pos).le
  rw [div_lt_iff cuspMaxRgb_hue90_pos]
  linarith [cuspMaxRgb_hue90_lo]

lemma w6_smax_eq : okhsvSmax ⟨90, 1, 1, 1/2⟩ = compute_max_saturation 0 1 := by
  have h1 : okhsvSmax ⟨90, 1, 1, 1/2⟩
      = cbrt (1 / cuspMaxRgb (okhsvA ⟨90, 1, 1, 1/2⟩) (okhsvB ⟨90, 1, 1, 1/2⟩))
        * compute_max_saturation (okhsvA ⟨90, 1, 1, 1/2⟩) (okhsvB ⟨90, 1, 1, 1/2⟩)
        / cbrt (1 / cuspMaxRgb (okhsvA ⟨90, 1, 1, 1/2⟩) (okhsvB ⟨90, 1, 1, 1/2⟩)) := rfl
  rw [h1, okhsvA_90, okhsvB_90, mul_div_cancel_left₀ _ w6_r_pos.ne']

lemma w6_tmax_eq : okhsvTmax ⟨90, 1, 1, 1/2⟩
    = cbrt (1 / cuspMaxRgb 0 1) * compute_max_saturation 0 1
      / (1 - cbrt (1 / cuspMaxRgb 0 1)) := by
  have h1 : okhsvTmax ⟨90, 1, 1, 1/2⟩
      = cbrt (1 / cuspMaxRgb (okhsvA ⟨90, 1, 1, 1/2⟩) (okhsvB ⟨90, 1, 1, 1/2⟩))
        * compute_max_saturation (okhsvA ⟨90, 1, 1, 1/2⟩) (okhsvB ⟨90, 1, 1, 1/2⟩)
        / (1 - cbrt (1 / cuspMaxRgb (okhsvA ⟨90, 1, 1, 1/2⟩) (okhsvB ⟨90, 1, 1, 1/2⟩))) := rfl
  rw [h1, okhsvA_90, okhsvB_90]

lemma w6_tm_lo : (1.2938:ℝ) < okhsvTmax ⟨90, 1, 1, 1/2⟩ := by
  have hr1 := w6_r_lo
  have hr2 := w6_r_hi
  have hSlo := cms_hue90_bounds.1
  have hrS : (0.86362:ℝ) * 0.204357
      < cbrt (1 / cuspMaxRgb 0 1) * compute_max_saturation 0 1 :=
    mul_lt_mul'' hr1 hSlo (by norm_num) (by norm_num)
  have h1r : (0:ℝ) < 1 - cbrt (1 / cuspMaxRgb 0 1) := by linarith
  rw [w6_tmax_eq, lt_div_iff h1r]
  linarith

lemma w6_tm_hi : okhsvTmax ⟨90, 1, 1, 1/2⟩ < 1.2946 := by
  have hr1 := w6_r_lo
  have hr2 := w6_r_hi
  have hSlo := cms_hue90_bounds.1
  have hShi := cms_hue90_bounds.2
  have hrS : cbrt (1 / cuspMaxRgb 0 1) * compute_max_saturation 0 1
      < 0.86364 * 0.204358 :=
    mul_lt_mul'' hr2 hShi w6_r_pos.le (by linarith)
  have h1r : (0:ℝ) < 1 - cbrt (1 / cuspMaxRgb 0 1) := by linarith
  rw [w6_tmax_eq, div_lt_iff h1r]
  linarith

lemma w6_k_eq : okhsvK ⟨90, 1, 1, 1/2⟩ = 1 - 0.5 / compute_max_saturation 0 1 := by
  have h1 : okhsvK ⟨90, 1, 1, 1/2⟩ = 1 - 0.5 / okhsvSmax ⟨90, 1, 1, 1/2⟩ := rfl
  rw [h1, w6_smax_eq]

lemma w6_k_lo : (-1.44672:ℝ) < okhsvK ⟨90, 1, 1, 1/2⟩ := by
  have hSlo := cms_hue90_bounds.1
  have hSpos : (0:ℝ) < compute_max_saturation 0 1 := by linarith
  rw [w6_k_eq]
  have h : (0.5:ℝ) / compute_max_saturation 0 1 < 2.44672 := by
    rw [div_lt_iff hSpos]
    linarith
  linarith

lemma w6_k_hi : okhsvK ⟨90, 1, 1, 1/2⟩ < -1.44666 := by
  have hShi := cms_hue90_bounds.2
  have hSlo := cms_hue90_bounds.1
  have hSpos : (0:ℝ) < compute_max_saturation 0 1 := by linarith
  rw [w6_k_eq]
  have h : (2.44666:ℝ) < 0.5 / compute_max_saturation 0 1 := by
    rw [lt_div_iff hSpos]
    linarith
  linarith

lemma w6_den_eq : okhsvDen ⟨90, 1, 1, 1/2⟩
    = 0.5 + okhsvTmax ⟨90, 1, 1, 1/2⟩
      - okhsvTmax ⟨90, 1, 1, 1/2⟩ * okhsvK ⟨90, 1, 1, 1/2⟩ * 1 := rfl

lemma w6_D_lo : (3.6654:ℝ) < okhsvDen ⟨90, 1, 1, 1/2⟩ := by
  have htl := w6_tm_lo
  have hkh := w6_k_hi
  have hP : (1.2938:ℝ) * 1.44666
      < okhsvTmax ⟨90, 1, 1, 1/2⟩ * -okhsvK ⟨90, 1, 1, 1/2⟩ :=
    mul_lt_mul'' htl (by linarith) (by norm_num) (by norm_num)
  rw [w6_den_eq]
  nlinarith [hP, htl]

lemma w6_D_hi : okhsvDen ⟨90, 1, 1, 1/2⟩ < 3.6676 := by
  have htl := w6_tm_lo
  have hth := w6_tm_hi
  have hkl := w6_k_lo
  have hkh := w6_k_hi
  have hQ : okhsvTmax ⟨90, 1, 1, 1/2⟩ * -okhsvK ⟨90, 1, 1, 1/2⟩
      < 1.2946 * 1.44672 :=
    mul_lt_mul'' hth (by linarith) (by linarith) (by linarith)
  rw [w6_den_eq]
  nlinarith [hQ, hth]

lemma w6_lv_eq : okhsvLv ⟨90, 1, 1, 1/2⟩
    = 1 - 1 * 0.5 / okhsvDen ⟨90, 1, 1, 1/2⟩ := rfl

lemma w6_lv_lo : (0.86358:ℝ) < okhsvLv ⟨90, 1, 1, 1/2⟩ := by
  have hDl := w6_D_lo
  have hDpos : (0:ℝ) < okhsvDen ⟨90, 1, 1, 1/2⟩ := by linarith
  rw [w6_lv_eq]
  have h : (1:ℝ) * 0.5 / okhsvDen ⟨90, 1, 1, 1/2⟩ < 0.13642 := by
    rw [div_lt_iff hDpos]
    linarith
  linarith

lemma w6_lv_hi : okhsvLv ⟨90, 1, 1, 1/2⟩ < 0.86368 := by
  have hDl := w6_D_lo
  have hDh := w6_D_hi
  have hDpos : (0:ℝ) < okhsvDen ⟨90, 1, 1, 1/2⟩ := by linarith
  rw [w6_lv_eq]
  have h : (0.13632:ℝ) < 1 * 0.5 / okhsvDen ⟨90, 1, 1, 1/2⟩ := by
    rw [lt_div_iff hDpos]
    linarith
  linarith

lemma w6_cv_eq : okhsvCv ⟨90, 1, 1, 1/2⟩
    = 1 * okhsvTmax ⟨90, 1, 1, 1/2⟩ * 0.5 / okhsvDen ⟨90, 1, 1, 1/2⟩ := rfl

lemma w6_cv_lo : (0.17630:ℝ) < okhsvCv ⟨90, 1, 1, 1/2⟩ := by
  have htl := w6_tm_lo
  have hDl := w6_D_lo
  have hDh := w6_D_hi
  have hDpos : (0:ℝ) < okhsvDen ⟨90, 1, 1, 1/2⟩ := by linarith
  rw [w6_cv_eq, lt_div_iff hDpos]
  linarith

lemma w6_cv_hi : okhsvCv ⟨90, 1, 1, 1/2⟩ < 0.17665 := by
  have hth := w6_tm_hi
  have hDl := w6_D_lo
  have hDpos : (0:ℝ) < okhsvDen ⟨90, 1, 1, 1/2⟩ := by linarith
  rw [w6_cv_eq, div_lt_iff hDpos]
  linarith

lemma w6_lvt_eq : okhsvLvt ⟨90, 1, 1, 1/2⟩
    = okhsvLv ⟨90, 1, 1, 1/2⟩ * (okhsvLv ⟨90, 1, 1, 1/2⟩ + 0.206)
      / (603 / 515 * (okhsvLv ⟨90, 1, 1, 1/2⟩ + 0.03)) := by
  have h1 : okhsvLvt ⟨90, 1, 1, 1/2⟩
      = okhsvLv ⟨90, 1, 1, 1/2⟩ * (okhsvLv ⟨90, 1, 1, 1/2⟩ + tK1)
        / (tK3 * (okhsvLv ⟨90, 1, 1, 1/2⟩ + tK2)) := rfl
  rw [h1, show tK1 = (0.206:ℝ) from rfl, show tK2 = (0.03:ℝ) from rfl,
    show tK3 = (603/515:ℝ) by norm_num [tK3, tK1, tK2]]

lemma w6_lvt_lo : (0.88268:ℝ) < okhsvLvt ⟨90, 1, 1, 1/2⟩ := by
  have hlo := w6_lv_lo
  have hhi := w6_lv_hi
  have hden : (0:ℝ) < 603 / 515 * (okhsvLv ⟨90, 1, 1, 1/2⟩ + 0.03) := by linarith
  rw [w6_lvt_eq, lt_div_iff hden]
  nlinarith [hlo, hhi, sq_nonneg (okhsvLv ⟨90, 1, 1, 1/2⟩ - 0.86358)]

lemma w6_lvt_hi : okhsvLvt ⟨90, 1, 1, 1/2⟩ < 0.88307 := by
  have hlo := w6_lv_lo
  have hhi := w6_lv_hi
  have hden : (0:ℝ) < 603 / 515 * (okhsvLv ⟨90, 1, 1, 1/2⟩ + 0.03) := by linarith
  rw [w6_lvt_eq, div_lt_iff hden]
  nlinarith [hlo, hhi, sq_nonneg (okhsvLv ⟨90, 1, 1, 1/2⟩ - 0.86368)]

lemma w6_cvt_eq : okhsvCvt ⟨90, 1, 1, 1/2⟩
    = okhsvCv ⟨90, 1, 1, 1/2⟩ * okhsvLvt ⟨90, 1, 1, 1/2⟩
      / okhsvLv ⟨90, 1, 1, 1/2⟩ := rfl

lemma w6_cvt_lo : (0.18016:ℝ) < okhsvCvt ⟨90, 1, 1, 1/2⟩ := by
  have hlvlo := w6_lv_lo
  have hlvhi := w6_lv_hi
  have hlvpos : (0:ℝ) < okhsvLv ⟨90, 1, 1, 1/2⟩ := by linarith
  have hP : (0.17630:ℝ) * 0.88268
      < okhsvCv ⟨90, 1, 1, 1/2⟩ * okhsvLvt ⟨90, 1, 1, 1/2⟩ :=
    mul_lt_mul'' w6_cv_lo w6_lvt_lo (by norm_num) (by norm_num)
  rw [w6_cvt_eq, lt_div_iff hlvpos]
  linarith

lemma w6_cvt_hi : okhsvCvt ⟨90, 1, 1, 1/2⟩ < 0.18066 := by
  have hlvlo := w6_lv_lo
  have hlvpos : (0:ℝ) < okhsvLv ⟨90, 1, 1, 1/2⟩ := by linarith
  have hQ : okhsvCv ⟨90, 1, 1, 1/2⟩ * okhsvLvt ⟨90, 1, 1, 1/2⟩
      < 0.17665 * 0.88307 :=
    mul_lt_mul'' w6_cv_hi w6_lvt_hi (by linarith [w6_cv_lo]) (by linarith [w6_lvt_lo])
  rw [w6_cvt_eq, div_lt_iff hlvpos]
  linarith

lemma okhsvScaleMax_hue90_pos : (0:ℝ) < okhsvScaleMax ⟨90, 1, 1, 1/2⟩ := by
  have hXl := w6_lvt_lo
  have hXh := w6_lvt_hi
  have hYl := w6_cvt_lo
  have hYh := w6_cvt_hi
  have hrgb : okhsvScaleRgb ⟨90, 1, 1, 1/2⟩
      = oklabaToLinearRgba ⟨okhsvLvt ⟨90, 1, 1, 1/2⟩, 0 * okhsvCvt ⟨90, 1, 1, 1/2⟩,
          1 * okhsvCvt ⟨90, 1, 1, 1/2⟩, 1⟩ := by
    unfold okhsvScaleRgb
    rw [okhsvA_90, okhsvB_90]
  have hG : (0:ℝ) < (okhsvScaleRgb ⟨90, 1, 1, 1/2⟩).green := by
    rw [hrgb]
    show (0:ℝ) <
      -1.2684380046 * (okhsvLvt ⟨90, 1, 1, 1/2⟩
        + 0.3963377774 * (0 * okhsvCvt ⟨90, 1, 1, 1/2⟩)
        + 0.2158037573 * (1 * okhsvCvt ⟨90, 1, 1, 1/2⟩)) ^ 3
      + 2.6097574011 * (okhsvLvt ⟨90, 1, 1, 1/2⟩
        - 0.1055613458 * (0 * okhsvCvt ⟨90, 1, 1, 1/2⟩)
        - 0.0638541728 * (1 * okhsvCvt ⟨90, 1, 1, 1/2⟩)) ^ 3
      - 0.3413193965 * (okhsvLvt ⟨90, 1, 1, 1/2⟩
        - 0.0894841775 * (0 * okhsvCvt ⟨90, 1, 1, 1/2⟩)
        - 1.2914855480 * (1 * okhsvCvt ⟨90, 1, 1, 1/2⟩)) ^ 3
    have e1 : okhsvLvt ⟨90, 1, 1, 1/2⟩
        + 0.3963377774 * (0 * okhsvCvt ⟨90, 1, 1, 1/2⟩)
        + 0.2158037573 * (1 * okhsvCvt ⟨90, 1, 1, 1/2⟩)
        = okhsvLvt ⟨90, 1, 1, 1/2⟩ + 0.2158037573 * okhsvCvt ⟨90, 1, 1, 1/2⟩ := by
      ring
    have e2 : okhsvLvt ⟨90, 1, 1, 1/2⟩
        - 0.1055613458 * (0 * okhsvCvt ⟨90, 1, 1, 1/2⟩)
        - 0.0638541728 * (1 * okhsvCvt ⟨90, 1, 1, 1/2⟩)
        = okhsvLvt ⟨90, 1, 1, 1/2⟩ - 0.0638541728 * okhsvCvt ⟨90, 1, 1, 1/2⟩ := by
      ring
    have e3 : okhsvLvt ⟨90, 1, 1, 1/2⟩
        - 0.0894841775 * (0 * okhsvCvt ⟨90, 1, 1, 1/2⟩)
        - 1.2914855480 * (1 * okhsvCvt ⟨90, 1, 1, 1/2⟩)
        = okhsvLvt ⟨90, 1, 1, 1/2⟩ - 1.2914855480 * okhsvCvt ⟨90, 1, 1, 1/2⟩ := by
      ring
    rw [e1, e2, e3]
    have hc1 : (okhsvLvt ⟨90, 1, 1, 1/2⟩ + 0.2158037573 * okhsvCvt ⟨90, 1, 1, 1/2⟩) ^ 3
        ≤ (0.92207:ℝ) ^ 3 :=
      pow_le_pow_left (by linarith) (by linarith) 3
    have hc2 : (0.87114:ℝ) ^ 3
        ≤ (okhsvLvt ⟨90, 1, 1, 1/2⟩ - 0.0638541728 * okhsvCvt ⟨90, 1, 1, 1/2⟩) ^ 3 :=
      pow_le_pow_left (by norm_num) (by linarith) 3
    have hc3 : (okhsvLvt ⟨90, 1, 1, 1/2⟩ - 1.2914855480 * okhsvCvt ⟨90, 1, 1, 1/2⟩) ^ 3
        ≤ (0.65040:ℝ) ^ 3 :=
      pow_le_pow_left (by linarith) (by linarith) 3
    nlinarith [hc1, hc2, hc3]
  unfold okhsvScaleMax
  exact lt_of_lt_of_le hG (le_trans (le_max_right _ _) (le_max_left _ _))

/-- Witness for C6: at `(H, S, V, alpha) = (90, 1, 1, 1/2)` all hypotheses of
the amended round-trip theorem hold and the round trip is exact. -/
theorem claim6_witness :
    oklabaToOkhsva (okhsvaToOklaba ⟨90, 1, 1, 1/2⟩) = ⟨90, 1, 1, 1/2⟩ :=
  claim6_amended 90 1 1 (1/2) (by norm_num) (by norm_num) (by norm_num)
    (by norm_num) (by norm_num) (by norm_num)
    (by rw [okhsvA_90, okhsvB_90]; exact w6_SC_pos)
    (by rw [okhsvA_90, okhsvB_90]; exact w6_M_gt1)
    okhsvScaleMax_hue90_pos
